import Mathlib

/-!
# ipftrace2: attach engine, event demultiplexer, run loop and image builder

A shallow embedding of `src/tracer.c`.  Kernel, libbpf and libc calls are
answers supplied by an explicit environment record; the process-wide
`attach_stat` counters and the order of the calls made to the outside are
carried in an explicit state.  Diagnostics written to stderr are not modelled.
-/

namespace Ipftrace

/-! ## Symbol database (declared in `ipft.h`, implemented outside `tracer.c`) -/

/-- Per-symbol metadata, `struct ipft_syminfo`: the position of the packet
buffer argument and the BTF handles used by the ftrace backend. -/
structure ipft_syminfo where
  skb_pos : Nat
  btf_fd : Int
  btf_id : Int
deriving DecidableEq, Repr, Inhabited

/-- Modelled from the spec: the symbol database, whose implementation is not
part of `tracer.c`.  One table of symbols, each with its name and metadata,
"indexed both by name and by argument position (one-to-many: many symbols
share an argument position)".  The list order is the iteration order. -/
structure ipft_symsdb where
  syms : List (String × ipft_syminfo)
deriving Repr

/-- Modelled from the spec: `symsdb_get_sym2info_total`, the query
"get-total-count" of the symbol database. -/
def symsdb_get_sym2info_total (sdb : ipft_symsdb) : Nat :=
  sdb.syms.length

/-- Modelled from the spec: the array behind "get-symbols-at-position", the
names of the symbols whose argument position is `pos`, in table order. -/
def symsdb_pos2syms (sdb : ipft_symsdb) (pos : Nat) : List String :=
  (sdb.syms.filter (fun p => p.2.skb_pos == pos)).map Prod.fst

/-- Modelled from the spec: `symsdb_get_pos2syms_total`, the query
"get-count-at-position". -/
def symsdb_get_pos2syms_total (sdb : ipft_symsdb) (pos : Nat) : Nat :=
  (symsdb_pos2syms sdb pos).length

/-- Modelled from the spec: `symsdb_pos2syms_get`, element `idx` of the
symbols at position `pos`; `none` stands for the NULL pointer. -/
def symsdb_pos2syms_get (sdb : ipft_symsdb) (pos idx : Nat) : Option String :=
  (symsdb_pos2syms sdb pos)[idx]?

/-- Modelled from the spec: `symsdb_get_sym2info`, the query
"lookup-metadata-by-name".  The first component is the returned error code
(0 when found, -1 otherwise), the second what is stored through the out
pointer. -/
def symsdb_get_sym2info (sdb : ipft_symsdb) (sym : String) : Int × ipft_syminfo :=
  match sdb.syms.find? (fun p => p.1 == sym) with
  | some p => (0, p.2)
  | none => (-1, default)

/-- Modelled from the spec: the walk behind `symsdb_sym2info_foreach`
("iterate-all-with-callback"; the pass continues "provided the caller
chooses to continue").  The callback is applied to the symbols in table
order; a callback result of -1 ends the walk, which then returns -1; after
the last symbol the walk returns 0. -/
def sym2info_foreach_list {σ : Type} (cb : String → ipft_syminfo → σ → Int × σ) :
    List (String × ipft_syminfo) → σ → Int × σ
  | [], s => (0, s)
  | (sym, si) :: rest, s =>
    let r := cb sym si s
    if r.1 == -1 then (-1, r.2) else sym2info_foreach_list cb rest r.2

/-- Modelled from the spec: `symsdb_sym2info_foreach`. -/
def symsdb_sym2info_foreach {σ : Type} (sdb : ipft_symsdb)
    (cb : String → ipft_syminfo → σ → Int × σ) (s : σ) : Int × σ :=
  sym2info_foreach_list cb sdb.syms s

/-! ## Loaded BPF object -/

/-- One program of the opened object, with the two load-time settings that
`ftrace_set_init_target` changes. -/
structure bpf_program where
  name : String
  autoload : Bool
  attach_target : Option String
deriving DecidableEq, Repr

/-- The opened BPF object `struct bpf_object`: its programs. -/
structure bpf_object where
  progs : List bpf_program
deriving DecidableEq, Repr

/-- The lookup `bpf_object__find_program_by_name`; `none` stands for NULL. -/
def bpf_object__find_program_by_name (bpf : bpf_object) (name : String) :
    Option bpf_program :=
  bpf.progs.find? (fun p => p.name == name)

/-! ## Tracer handle and mutable state -/

/-- The options read by the tracer, `struct ipft_tracer_opt`. -/
structure ipft_tracer_opt where
  backend : String
  enable_probe_server : Bool
deriving Repr

/-- The tracer handle `struct ipft_tracer`.  The compiled regex is the
predicate `regex_match(t->re, -)`; `script` says whether `t->script` is
non-NULL. -/
structure ipft_tracer where
  bpf : bpf_object
  re : String → Bool
  sdb : ipft_symsdb
  opt : ipft_tracer_opt
  script : Bool

/-- The expected attach type passed to `bpf_prog_load`. -/
inductive bpf_attach_type where
  | BPF_TRACE_FENTRY
  | BPF_TRACE_FEXIT
deriving DecidableEq, Repr

/-- The calls made to the kernel and to the collaborators, as recorded in
the state, oldest first. -/
inductive Call where
  | attach_kprobe (prog sym : String)
  | attach_kprobe_multi (prog : String) (syms : List String)
  | prog_load (prog : String) (ty : bpf_attach_type) (sym : String)
  | raw_tracepoint_open (fd : Int)
  | output_on_trace (data : List Nat)
  | output_post_trace
  | script_exec_fini
  | pthread_create
  | pthread_detach
deriving DecidableEq, Repr

/-- The static `attach_stat` of `tracer.c`.  The C counters are `size_t`;
each is incremented at most once per symbol held in memory, so they stay far
below `2^64` and are kept as natural numbers. -/
structure attach_stat_t where
  total : Nat
  succeeded : Nat
  failed : Nat
  filtered : Nat
deriving DecidableEq, Repr

/-- The mutable state: the counters and the record of outside calls. -/
structure State where
  attach_stat : attach_stat_t
  calls : List Call
deriving DecidableEq, Repr

/-- The state at process start: `attach_stat = {0}`, nothing called. -/
def State.init : State :=
  ⟨⟨0, 0, 0, 0⟩, []⟩

/-- The answers of the kernel, libbpf, libc and the output collaborator. -/
structure Kernel where
  /-- The constant `MAX_SKB_POS` of `ipft.h`. -/
  MAX_SKB_POS : Nat
  /-- Whether `bpf_program__attach_kprobe(prog, false, sym)` returns a link. -/
  attach_kprobe : String → String → Bool
  /-- The value of `libbpf_get_error` on the link returned by
  `bpf_program__attach_kprobe_multi_opts` for a program and symbol list. -/
  attach_kprobe_multi : String → List String → Int
  /-- Whether `calloc` of that many pointers returns non-NULL. -/
  calloc : Nat → Bool
  /-- The value of `bpf_object__btf_fd`. -/
  btf_fd : Int
  /-- The value of `bpf_prog_load` for a template, attach type and target. -/
  bpf_prog_load : String → bpf_attach_type → ipft_syminfo → Int
  /-- The value of `bpf_raw_tracepoint_open(NULL, fd)`. -/
  bpf_raw_tracepoint_open : Int → Int
  /-- The value of `output_on_trace` on a sample payload. -/
  output_on_trace : List Nat → Int
  /-- The value of `output_post_trace`. -/
  output_post_trace : Int
  /-- The value of `pthread_create`. -/
  pthread_create : Int
  /-- The value of `pthread_detach`. -/
  pthread_detach : Int

/-- Append a call to the record. -/
def State.log (s : State) (c : Call) : State :=
  { s with calls := s.calls ++ [c] }

/-- The statement `attach_stat.filtered++`. -/
def State.inc_filtered (s : State) : State :=
  { s with attach_stat := { s.attach_stat with filtered := s.attach_stat.filtered + 1 } }

/-- The effect of `n` executions of `attach_stat.filtered++`. -/
def State.add_filtered (s : State) (n : Nat) : State :=
  { s with attach_stat := { s.attach_stat with filtered := s.attach_stat.filtered + n } }

/-- The statement `attach_stat.failed += n`. -/
def State.add_failed (s : State) (n : Nat) : State :=
  { s with attach_stat := { s.attach_stat with failed := s.attach_stat.failed + n } }

/-- The statement `attach_stat.succeeded += n`. -/
def State.add_succeeded (s : State) (n : Nat) : State :=
  { s with attach_stat := { s.attach_stat with succeeded := s.attach_stat.succeeded + n } }

/-- The name written by `sprintf(name, "ipft_main%d", i)`; the 32-byte
buffer is never exceeded and the call does not fail. -/
def main_name (i : Nat) : String :=
  "ipft_main" ++ toString i

/-- The name written by `sprintf(name, "ipft_main_return%d", i)`. -/
def main_return_name (i : Nat) : String :=
  "ipft_main_return" ++ toString i

/-! ## kprobe backend -/

/-- The callback `attach_cb`: one symbol of the kprobe pass. -/
def attach_cb (k : Kernel) (t : ipft_tracer) (sym : String) (si : ipft_syminfo)
    (s : State) : Int × State :=
  if !t.re sym then
    (0, s.inc_filtered)
  else
    match bpf_object__find_program_by_name t.bpf (main_name si.skb_pos) with
    | none => (-1, s)
    | some prog =>
      let s1 := s.log (Call.attach_kprobe prog.name sym)
      if !k.attach_kprobe prog.name sym then
        (-1, s1.add_failed 1)
      else
        (0, s1.add_succeeded 1)

/-- The function `attach_kprobe`. -/
def attach_kprobe (k : Kernel) (t : ipft_tracer) (s : State) : Int × State :=
  let r := symsdb_sym2info_foreach t.sdb (attach_cb k t) s
  if r.1 == -1 then (-1, r.2) else (0, r.2)

/-! ## kprobe-multi backend -/

/-- The inner loop of `attach_kprobe_multi` over the symbols of one position
(`for j < symsdb_get_pos2syms_total(sdb, i)`, `sym = symsdb_pos2syms_get(sdb,
i, j)`, that is, the list of the position in order): a symbol that fails the
regex bumps `filtered`, the others are stored in `syms[cur++]`.  The
accumulator is the filled part of `syms`. -/
def kprobe_multi_collect (t : ipft_tracer) : List String → List String → State →
    List String × State
  | [], acc, s => (acc, s)
  | sym :: rest, acc, s =>
    if !t.re sym then kprobe_multi_collect t rest acc s.inc_filtered
    else kprobe_multi_collect t rest (acc ++ [sym]) s

/-- The body of the outer loop of `attach_kprobe_multi` for position `i`.
The integer is -1 when the body returns from the function and 0 when the
loop goes on to the next position. -/
def attach_kprobe_multi_pos (k : Kernel) (t : ipft_tracer) (i : Nat) (s : State) :
    Int × State :=
  match bpf_object__find_program_by_name t.bpf (main_name i) with
  | none => (-1, s)
  | some prog =>
    if !k.calloc (symsdb_get_pos2syms_total t.sdb i) then
      (-1, s)
    else
      let c := kprobe_multi_collect t (symsdb_pos2syms t.sdb i) [] s
      let cnt := c.1.length
      let s1 := c.2.log (Call.attach_kprobe_multi prog.name c.1)
      let error := k.attach_kprobe_multi prog.name c.1
      if error != 0 then (0, s1.add_failed cnt) else (0, s1.add_succeeded cnt)

/-- The outer loop of `attach_kprobe_multi` over a list of positions. -/
def attach_kprobe_multi_loop (k : Kernel) (t : ipft_tracer) : List Nat → State →
    Int × State
  | [], s => (0, s)
  | i :: rest, s =>
    let r := attach_kprobe_multi_pos k t i s
    if r.1 == -1 then (-1, r.2) else attach_kprobe_multi_loop k t rest r.2

/-- The function `attach_kprobe_multi`: positions `0 .. MAX_SKB_POS - 1`. -/
def attach_kprobe_multi (k : Kernel) (t : ipft_tracer) (s : State) : Int × State :=
  attach_kprobe_multi_loop k t (List.range k.MAX_SKB_POS) s

/-! ## ftrace backend -/

/-- The body of the inner loop of `attach_ftrace` for one symbol.  The
integer is -1 when the body returns from the function and 0 when the loop
goes on.  The variable `error` holds the result of `symsdb_get_sym2info`
throughout; the two tests after `bpf_prog_load` read it, as the source
does. -/
def attach_ftrace_sym (k : Kernel) (t : ipft_tracer) (entry_prog exit_prog : bpf_program)
    (sym : String) (s : State) : Int × State :=
  if !t.re sym then
    (0, s.inc_filtered)
  else
    let r := symsdb_get_sym2info t.sdb sym
    let error := r.1
    let sinfo := r.2
    if error != 0 then
      (-1, s)
    else
      let entry_fd := k.bpf_prog_load entry_prog.name bpf_attach_type.BPF_TRACE_FENTRY sinfo
      let s1 := s.log (Call.prog_load entry_prog.name bpf_attach_type.BPF_TRACE_FENTRY sym)
      if error == -1 then
        (-1, s1)
      else
        let exit_fd := k.bpf_prog_load exit_prog.name bpf_attach_type.BPF_TRACE_FEXIT sinfo
        let s2 := s1.log (Call.prog_load exit_prog.name bpf_attach_type.BPF_TRACE_FEXIT sym)
        if error == -1 then
          (-1, s2)
        else
          let entry_tp_fd := k.bpf_raw_tracepoint_open entry_fd
          let s3 := s2.log (Call.raw_tracepoint_open entry_fd)
          if entry_tp_fd < 0 then
            (-1, s3)
          else
            let exit_tp_fd := k.bpf_raw_tracepoint_open exit_fd
            let s4 := s3.log (Call.raw_tracepoint_open exit_fd)
            if exit_tp_fd < 0 then
              (-1, s4)
            else
              (0, s4.add_succeeded 1)

/-- The inner loop of `attach_ftrace` over the symbols of one position, in
the order of `symsdb_pos2syms_get(sdb, i, j)` for `j = 0, 1, ..`. -/
def attach_ftrace_syms (k : Kernel) (t : ipft_tracer) (entry_prog exit_prog : bpf_program) :
    List String → State → Int × State
  | [], s => (0, s)
  | sym :: rest, s =>
    let r := attach_ftrace_sym k t entry_prog exit_prog sym s
    if r.1 == -1 then (-1, r.2) else attach_ftrace_syms k t entry_prog exit_prog rest r.2

/-- The body of the outer loop of `attach_ftrace` for position `i`. -/
def attach_ftrace_pos (k : Kernel) (t : ipft_tracer) (i : Nat) (s : State) : Int × State :=
  match bpf_object__find_program_by_name t.bpf (main_name i) with
  | none => (-1, s)
  | some entry_prog =>
    match bpf_object__find_program_by_name t.bpf (main_return_name i) with
    | none => (-1, s)
    | some exit_prog =>
      attach_ftrace_syms k t entry_prog exit_prog (symsdb_pos2syms t.sdb i) s

/-- The outer loop of `attach_ftrace` over a list of positions. -/
def attach_ftrace_loop (k : Kernel) (t : ipft_tracer) : List Nat → State → Int × State
  | [], s => (0, s)
  | i :: rest, s =>
    let r := attach_ftrace_pos k t i s
    if r.1 == -1 then (-1, r.2) else attach_ftrace_loop k t rest r.2

/-- The function `attach_ftrace`. -/
def attach_ftrace (k : Kernel) (t : ipft_tracer) (s : State) : Int × State :=
  if k.btf_fd < 0 then (-1, s)
  else attach_ftrace_loop k t (List.range k.MAX_SKB_POS) s

/-! ## Backend dispatch -/

/-- The function `attach_all`: fix `total`, then run the pass of the
backend named in the options. -/
def attach_all (k : Kernel) (t : ipft_tracer) (s : State) : Int × State :=
  let s0 : State :=
    { s with attach_stat := { s.attach_stat with total := symsdb_get_sym2info_total t.sdb } }
  if t.opt.backend == "kprobe" then
    let r := attach_kprobe k t s0
    if r.1 == -1 then (-1, r.2) else (r.1, r.2)
  else if t.opt.backend == "kprobe-multi" then
    let r := attach_kprobe_multi k t s0
    if r.1 == -1 then (-1, r.2) else (r.1, r.2)
  else if t.opt.backend == "ftrace" then
    let r := attach_ftrace k t s0
    if r.1 == -1 then (-1, r.2) else (r.1, r.2)
  else
    (-1, s0)

/-! ## Derived quantities used in the statements -/

/-- The number of symbols accounted for so far:
`filtered + succeeded + failed`. -/
def State.accounted (s : State) : Nat :=
  s.attach_stat.filtered + s.attach_stat.succeeded + s.attach_stat.failed

/-- The number of database symbols listed under the positions of `ps`. -/
def listed (sdb : ipft_symsdb) (ps : List Nat) : Nat :=
  (ps.map (fun i => (symsdb_pos2syms sdb i).length)).sum

/-! ## Concrete environments -/

/-- An object holding the entry and exit templates of positions 0 and 1. -/
def demo_obj : bpf_object :=
  ⟨[⟨"ipft_main0", true, none⟩, ⟨"ipft_main1", true, none⟩,
    ⟨"ipft_main_return0", true, none⟩, ⟨"ipft_main_return1", true, none⟩]⟩

/-- A kernel with two argument positions in which every request succeeds. -/
def demo_kernel : Kernel :=
  { MAX_SKB_POS := 2
    attach_kprobe := fun _ _ => true
    attach_kprobe_multi := fun _ _ => 0
    calloc := fun _ => true
    btf_fd := 3
    bpf_prog_load := fun _ ty _ =>
      match ty with
      | bpf_attach_type.BPF_TRACE_FENTRY => 10
      | bpf_attach_type.BPF_TRACE_FEXIT => 11
    bpf_raw_tracepoint_open := fun fd => fd + 10
    output_on_trace := fun _ => 0
    output_post_trace := 0
    pthread_create := 0
    pthread_detach := 0 }

/-- A database of three symbols: `a` at position 0, `x` and `b` at 1. -/
def demo_sdb : ipft_symsdb :=
  ⟨[("a", ⟨0, 1, 2⟩), ("x", ⟨1, 1, 2⟩), ("b", ⟨1, 1, 2⟩)]⟩

/-- A tracer over `demo_sdb` whose regex rejects exactly the name `x`. -/
def demo_tracer (backend : String) : ipft_tracer :=
  { bpf := demo_obj, re := fun s => s != "x", sdb := demo_sdb,
    opt := ⟨backend, false⟩, script := false }

/-- A kernel in which opening a raw tracepoint always fails. -/
def kernel_raw_tp_fails : Kernel :=
  { demo_kernel with bpf_raw_tracepoint_open := fun _ => -1 }

/-- A kernel that refuses every kprobe and every bulk attach. -/
def kernel_attach_fails : Kernel :=
  { demo_kernel with attach_kprobe := fun _ _ => false, attach_kprobe_multi := fun _ _ => -22 }

/-! ## Event demultiplexer -/

/-- The header `struct perf_event_header` of a record of the perf buffer. -/
structure perf_event_header where
  type : Nat
  misc : Nat
  size : Nat
deriving DecidableEq, Repr

/-- The record layout `struct perf_sample_data`: header, payload size and
payload bytes. -/
structure perf_sample_data where
  header : perf_event_header
  size : Nat
  data : List Nat
deriving DecidableEq, Repr

/-- The record type `PERF_RECORD_LOST` of `linux/perf_event.h`. -/
def PERF_RECORD_LOST : Nat := 2

/-- The record type `PERF_RECORD_SAMPLE` of `linux/perf_event.h`. -/
def PERF_RECORD_SAMPLE : Nat := 9

/-- The result type `enum bpf_perf_event_ret` of libbpf. -/
inductive bpf_perf_event_ret where
  | LIBBPF_PERF_EVENT_DONE
  | LIBBPF_PERF_EVENT_ERROR
  | LIBBPF_PERF_EVENT_CONT
deriving DecidableEq, Repr

/-- The numeric value of a `bpf_perf_event_ret`. -/
def bpf_perf_event_ret.toInt : bpf_perf_event_ret → Int
  | LIBBPF_PERF_EVENT_DONE => 0
  | LIBBPF_PERF_EVENT_ERROR => -1
  | LIBBPF_PERF_EVENT_CONT => -2

/-- The callback `trace_cb`, a switch on the record type.  The output
collaborator `t->out` is reached through the environment. -/
def trace_cb (k : Kernel) (ehdr : perf_sample_data) (s : State) :
    bpf_perf_event_ret × State :=
  if ehdr.header.type = PERF_RECORD_SAMPLE then
    let error := k.output_on_trace ehdr.data
    let s1 := s.log (Call.output_on_trace ehdr.data)
    if error == -1 then
      (bpf_perf_event_ret.LIBBPF_PERF_EVENT_ERROR, s1)
    else
      (bpf_perf_event_ret.LIBBPF_PERF_EVENT_CONT, s1)
  else if ehdr.header.type = PERF_RECORD_LOST then
    (bpf_perf_event_ret.LIBBPF_PERF_EVENT_CONT, s)
  else
    (bpf_perf_event_ret.LIBBPF_PERF_EVENT_ERROR, s)

/-- The record reader of libbpf that drives the callback
(`perf_event_read_simple`): the records are handed over in order, and the
first result other than "continue" ends the reading and is returned. -/
def perf_event_read_simple (k : Kernel) : List perf_sample_data → State →
    bpf_perf_event_ret × State
  | [], s => (bpf_perf_event_ret.LIBBPF_PERF_EVENT_CONT, s)
  | e :: rest, s =>
    let r := trace_cb k e s
    if r.1 = bpf_perf_event_ret.LIBBPF_PERF_EVENT_CONT then
      perf_event_read_simple k rest r.2
    else r

/-- The number of times `output_on_trace` has been called. -/
def State.on_trace_calls (s : State) : Nat :=
  (s.calls.filter (fun c => match c with
    | Call.output_on_trace _ => true
    | _ => false)).length

/-- The SAMPLE records of a stream. -/
def samples (l : List perf_sample_data) : List perf_sample_data :=
  l.filter (fun e => e.header.type == PERF_RECORD_SAMPLE)

/-- A SAMPLE record with the given payload. -/
def sample_record (data : List Nat) : perf_sample_data :=
  ⟨⟨PERF_RECORD_SAMPLE, 0, 16⟩, data.length, data⟩

/-- A LOST record. -/
def lost_record : perf_sample_data :=
  ⟨⟨PERF_RECORD_LOST, 0, 24⟩, 0, []⟩

/-- A record of a type that is neither SAMPLE nor LOST (`PERF_RECORD_EXIT`). -/
def unknown_record : perf_sample_data :=
  ⟨⟨4, 0, 8⟩, 0, [7]⟩

/-! ## Run loop -/

/-- One call of `perf_buffer__poll` as the environment answers it: the value
the call returns when every callback continues (the number of ready buffers,
or a negative error such as the one of an interrupted wait), the records it
delivers, and whether `handle_signal` ran during the call, setting the
static flag `end`. -/
structure poll_event where
  ret : Int
  records : List perf_sample_data
  signal : Bool
deriving DecidableEq, Repr

/-- The call `perf_buffer__poll` of libbpf: a failed wait delivers nothing
and returns its error; otherwise the records go through `trace_cb`, and a
callback error is returned in place of the count. -/
def perf_buffer__poll (k : Kernel) (p : poll_event) (s : State) : Int × State :=
  if p.ret < 0 then (p.ret, s)
  else
    let r := perf_event_read_simple k p.records s
    if r.1 = bpf_perf_event_ret.LIBBPF_PERF_EVENT_ERROR then
      (bpf_perf_event_ret.LIBBPF_PERF_EVENT_ERROR.toInt, r.2)
    else (p.ret, r.2)

/-- How the poll loop of `tracer_run` ends: the flag `end` was observed, a
poll failed with the flag unset, or the loop is still polling when the
recorded answers of the environment run out. -/
inductive loop_exit where
  | stopped
  | poll_failed
  | polling
deriving DecidableEq, Repr

/-- The loop `while (!end) { if ((error = perf_buffer__poll(..)) < 0)
{ if (end) break; return -1; } }`.  The first argument is the current value
of the flag `end`. -/
def poll_loop (k : Kernel) : Bool → List poll_event → State → loop_exit × State
  | end_flag, [], s => if end_flag then (loop_exit.stopped, s) else (loop_exit.polling, s)
  | end_flag, p :: rest, s =>
    if end_flag then (loop_exit.stopped, s)
    else
      let r := perf_buffer__poll k p s
      let end_flag1 := end_flag || p.signal
      if r.1 < 0 then
        if end_flag1 then (loop_exit.stopped, r.2) else (loop_exit.poll_failed, r.2)
      else poll_loop k end_flag1 rest r.2

/-- The part of `tracer_run` before the poll loop: `attach_all`, then the
optional probe-server thread.  The integer is 0 when control reaches the
loop and -1 when the function returns -1.  The body of the thread is not
modelled. -/
def tracer_run_start (k : Kernel) (t : ipft_tracer) (s : State) : Int × State :=
  let a := attach_all k t s
  if a.1 != 0 then (-1, a.2)
  else if t.opt.enable_probe_server then
    let s1 := a.2.log Call.pthread_create
    if k.pthread_create == -1 then (-1, s1)
    else
      let s2 := s1.log Call.pthread_detach
      if k.pthread_detach == -1 then (-1, s2) else (0, s2)
  else (0, a.2)

/-- The part of `tracer_run` after the poll loop: `output_post_trace`, then
`script_exec_fini` when a script is configured. -/
def tracer_run_finish (k : Kernel) (t : ipft_tracer) (s : State) : Int × State :=
  let s1 := s.log Call.output_post_trace
  if k.output_post_trace == -1 then (-1, s1)
  else if t.script then (0, s1.log Call.script_exec_fini)
  else (0, s1)

/-- The function `tracer_run`.  `early_signal` says whether a signal arrived
after the handlers were installed and before the first test of `end`;
`polls` are the answers to the successive polls.  The result is `none` when
the loop is still polling after the last recorded answer. -/
def tracer_run (k : Kernel) (t : ipft_tracer) (early_signal : Bool) (polls : List poll_event)
    (s : State) : Option (Int × State) :=
  let a := tracer_run_start k t s
  if a.1 != 0 then some (-1, a.2)
  else
    match poll_loop k early_signal polls a.2 with
    | (loop_exit.polling, _) => none
    | (loop_exit.poll_failed, s1) => some (-1, s1)
    | (loop_exit.stopped, s1) => some (tracer_run_finish k t s1)

/-- The number of recorded calls equal to `c`. -/
def State.count_call (s : State) (c : Call) : Nat :=
  s.calls.count c

/-- A kernel in which `output_post_trace` fails. -/
def kernel_post_trace_fails : Kernel :=
  { demo_kernel with output_post_trace := -1 }

/-- The tracer `demo_tracer` with a script configured. -/
def demo_tracer_script (backend : String) : ipft_tracer :=
  { demo_tracer backend with script := true }

/-- A poll that delivers one sample and returns 1. -/
def poll_sample : poll_event :=
  ⟨1, [sample_record [1]], false⟩

/-- A poll interrupted by the termination signal: it returns -4 (`-EINTR`)
and the handler has set the flag. -/
def poll_interrupted : poll_event :=
  ⟨-4, [], true⟩

/-- A kernel that refuses the kprobe on the symbol `a` and accepts the
others. -/
def kernel_rejects_a : Kernel :=
  { demo_kernel with attach_kprobe := fun _ sym => sym != "a" }

/-- A kernel in which every request succeeds and `bpf_raw_tracepoint_open`
refuses a negative descriptor with -9 (`-EBADF`). -/
def kernel_strict : Kernel :=
  { demo_kernel with bpf_raw_tracepoint_open := fun fd => if fd < 0 then -9 else fd + 10 }

/-- The kernel `kernel_strict` in which loading an entry program fails with
-1. -/
def kernel_strict_load_fails : Kernel :=
  { kernel_strict with
    bpf_prog_load := fun _ ty _ =>
      match ty with
      | bpf_attach_type.BPF_TRACE_FENTRY => -1
      | bpf_attach_type.BPF_TRACE_FEXIT => 11 }

/-! ## Image builder -/

/-- The compiled-in images of the generated headers `ipft_kprobe.bpf.o.h`,
`ipft_kprobe_multi.bpf.o.h`, `ipft_ftrace.bpf.o.h` and
`null_module.bpf.o.h`, which are not part of `tracer.c`: each an array of
bytes and its length. -/
structure images where
  ipft_kprobe_bpf_o : List Nat
  ipft_kprobe_bpf_o_len : Nat
  ipft_kprobe_multi_bpf_o : List Nat
  ipft_kprobe_multi_bpf_o_len : Nat
  ipft_ftrace_bpf_o : List Nat
  ipft_ftrace_bpf_o_len : Nat
  null_module_bpf_o : List Nat
  null_module_bpf_o_len : Nat
deriving DecidableEq, Repr

/-- The function `get_target_image`: `some (image, size)` stands for the
result 0 with both out parameters written, `none` for the result -1. -/
def get_target_image (imgs : images) (backend : String) : Option (List Nat × Nat) :=
  if backend == "kprobe" then
    some (imgs.ipft_kprobe_bpf_o, imgs.ipft_kprobe_bpf_o_len)
  else if backend == "kprobe-multi" then
    some (imgs.ipft_kprobe_multi_bpf_o, imgs.ipft_kprobe_multi_bpf_o_len)
  else if backend == "ftrace" then
    some (imgs.ipft_ftrace_bpf_o, imgs.ipft_ftrace_bpf_o_len)
  else
    none

/-- The function `get_default_module_image`, which always returns 0. -/
def get_default_module_image (imgs : images) : List Nat × Nat :=
  (imgs.null_module_bpf_o, imgs.null_module_bpf_o_len)

/-- The temporary files present in the file system, by path. -/
abbrev Fs := List String

/-- The call `unlink(name)`. -/
def unlink (fs : Fs) (name : String) : Fs :=
  fs.filter (fun f => f != name)

/-- The answers of libc to one call of `create_tmpfile_from_image`: whether
`strdup` returns a string, the unique path chosen by `mkstemp` (`none` when
it fails) and whether `write` succeeds. -/
structure tmpfile_env where
  strdup_ok : Bool
  mkstemp : Option String
  write_ok : Bool
deriving DecidableEq, Repr

/-- The function `create_tmpfile_from_image`: `some name` stands for the
result 0 with `*namep = name`, `none` for the result -1. -/
def create_tmpfile_from_image (e : tmpfile_env) (fs : Fs) : Option String × Fs :=
  if !e.strdup_ok then (none, fs)
  else
    match e.mkstemp with
    | none => (none, fs)
    | some name =>
      let fs1 := name :: fs
      if !e.write_ok then (none, unlink fs1 name)
      else (some name, fs1)

/-- The answers of libc and libbpf to one call of `do_link`.  The linker
creates its output file at the path given by `tmpnam` when
`bpf_linker__new` succeeds, and no file when it fails. -/
structure link_env where
  target : tmpfile_env
  module : tmpfile_env
  tmpnam : String
  bpf_linker__new : Bool
  add_file_target : Int
  add_file_module : Int
  bpf_linker__finalize : Int
deriving DecidableEq, Repr

/-- The function `do_link`.  The result holds the returned integer, the
value written to `*namep` (`none` when nothing is written) and the file
system.  On the `err1` path the variable `error` still holds the 0 returned
by the second `create_tmpfile_from_image`. -/
def do_link (e : link_env) (fs : Fs) : Int × Option String × Fs :=
  match create_tmpfile_from_image e.target fs with
  | (none, fs1) => (-1, none, fs1)
  | (some target_name, fs1) =>
    match create_tmpfile_from_image e.module fs1 with
    | (none, fs2) => (-1, none, unlink fs2 target_name)
    | (some module_name, fs2) =>
      let name := e.tmpnam
      if !e.bpf_linker__new then
        (0, none, unlink (unlink fs2 module_name) target_name)
      else
        let fs3 := name :: fs2
        if e.add_file_target == -1 then
          (-1, none, unlink (unlink fs3 module_name) target_name)
        else if e.add_file_module == -1 then
          (-1, none, unlink (unlink fs3 module_name) target_name)
        else if e.bpf_linker__finalize == -1 then
          (-1, none, unlink (unlink fs3 module_name) target_name)
        else
          (0, some name, unlink (unlink fs3 module_name) target_name)

/-- Apply `f` to the first program called `name`. -/
def update_program (name : String) (f : bpf_program → bpf_program) :
    List bpf_program → List bpf_program
  | [] => []
  | p :: ps => if p.name == name then f p :: ps else p :: update_program name f ps

/-- The call `bpf_program__set_autoload(prog, autoload)`. -/
def bpf_program__set_autoload (bpf : bpf_object) (prog : bpf_program) (autoload : Bool) :
    bpf_object :=
  ⟨update_program prog.name (fun p => { p with autoload := autoload }) bpf.progs⟩

/-- The answers of libbpf and of the script collaborator while the object is
built.  `set_attach_target` is the value of
`bpf_program__set_attach_target(prog, 0, sym)`, which records the target
when it returns 0. -/
structure build_env where
  imgs : images
  script_get_program : Option (List Nat × Nat)
  link : link_env
  bpf_object__open : Option bpf_object
  set_attach_target : String → String → Int
  bpf_object__load : Int
  bpf_map_update_elem : Int

/-- The call `bpf_program__set_attach_target(prog, 0, sym)`. -/
def bpf_program__set_attach_target (e : build_env) (bpf : bpf_object) (prog : bpf_program)
    (sym : String) : Int × bpf_object :=
  let error := e.set_attach_target prog.name sym
  if error == 0 then
    (0, ⟨update_program prog.name (fun p => { p with attach_target := some sym }) bpf.progs⟩)
  else (error, bpf)

/-- The body of the loop of `ftrace_set_init_target` for position `i`: -1
when the body returns from the function, 0 when the loop goes on. -/
def ftrace_set_init_target_pos (e : build_env) (t : ipft_tracer) (i : Nat)
    (bpf : bpf_object) : Int × bpf_object :=
  match bpf_object__find_program_by_name bpf (main_name i) with
  | none => (-1, bpf)
  | some entry_prog =>
    match bpf_object__find_program_by_name bpf (main_return_name i) with
    | none => (-1, bpf)
    | some exit_prog =>
      match symsdb_pos2syms_get t.sdb i 0 with
      | none =>
        (0, bpf_program__set_autoload (bpf_program__set_autoload bpf entry_prog false)
          exit_prog false)
      | some sym =>
        let r1 := bpf_program__set_attach_target e bpf entry_prog sym
        if r1.1 == -1 then (-1, r1.2)
        else
          let r2 := bpf_program__set_attach_target e r1.2 exit_prog sym
          if r2.1 == -1 then (-1, r2.2) else (0, r2.2)

/-- The loop of `ftrace_set_init_target` over a list of positions. -/
def ftrace_set_init_target_loop (e : build_env) (t : ipft_tracer) :
    List Nat → bpf_object → Int × bpf_object
  | [], bpf => (0, bpf)
  | i :: rest, bpf =>
    let r := ftrace_set_init_target_pos e t i bpf
    if r.1 == -1 then (-1, r.2) else ftrace_set_init_target_loop e t rest r.2

/-- The function `ftrace_set_init_target`. -/
def ftrace_set_init_target (k : Kernel) (e : build_env) (t : ipft_tracer)
    (bpf : bpf_object) : Int × bpf_object :=
  ftrace_set_init_target_loop e t (List.range k.MAX_SKB_POS) bpf

/-- The function `bpf_create`.  The result holds the returned integer, the
object written to `*bpfp` and the file system.  When `do_link` returns 0
without writing the name, `bpf_object__open` is called on an indeterminate
pointer; the call is taken to return NULL.  The mark and mask written to the
`config` map have no part in the result. -/
def bpf_create (k : Kernel) (e : build_env) (t : ipft_tracer) (backend : String) (fs : Fs) :
    Int × Option bpf_object × Fs :=
  match get_target_image e.imgs backend with
  | none => (-1, none, fs)
  | some _ =>
    if t.script && e.script_get_program.isNone then (-1, none, fs)
    else
      let r := do_link e.link fs
      if r.1 == -1 then (-1, none, r.2.2)
      else
        match r.2.1 with
        | none => (-1, none, r.2.2)
        | some name =>
          match e.bpf_object__open with
          | none => (-1, none, r.2.2)
          | some bpf =>
            let fs1 := unlink r.2.2 name
            let f := if backend == "ftrace" then ftrace_set_init_target k e t bpf else (0, bpf)
            if f.1 == -1 then (-1, none, fs1)
            else if e.bpf_object__load == -1 then (-1, none, fs1)
            else if e.bpf_map_update_elem == -1 then (-1, none, fs1)
            else (0, some f.2, fs1)

/-- Compiled-in images told apart by their first byte. -/
def demo_images : images :=
  ⟨[1], 1, [2, 2], 2, [3, 3, 3], 3, [0], 1⟩

/-- A linking environment in which every step succeeds. -/
def demo_link_env : link_env :=
  { target := ⟨true, some "/tmp/ipft_AAAAAA", true⟩
    module := ⟨true, some "/tmp/ipft_BBBBBB", true⟩
    tmpnam := "/tmp/fileCCCCCC"
    bpf_linker__new := true
    add_file_target := 0
    add_file_module := 0
    bpf_linker__finalize := 0 }

/-- A build environment in which every step succeeds. -/
def demo_build_env : build_env :=
  { imgs := demo_images
    script_get_program := some ([9], 1)
    link := demo_link_env
    bpf_object__open := some demo_obj
    set_attach_target := fun _ _ => 0
    bpf_object__load := 0
    bpf_map_update_elem := 0 }

/-- The build environment in which only `bpf_object__open` fails. -/
def build_env_open_fails : build_env :=
  { demo_build_env with bpf_object__open := none }

/-- The build environment in which only the first `bpf_linker__add_file`
fails. -/
def build_env_add_file_fails : build_env :=
  { demo_build_env with link := { demo_link_env with add_file_target := -1 } }

/-- A tracer with no symbol in its database. -/
def empty_tracer (backend : String) : ipft_tracer :=
  { demo_tracer backend with sdb := ⟨[]⟩ }

/-- A poll that fails with -5 (`-EIO`) while no signal has arrived. -/
def poll_broken : poll_event :=
  ⟨-5, [], false⟩

/-- What the init-target pre-pass is to do to a template of position `i`:
with no symbol at the position the template is not to be loaded, otherwise
its attach target is the first symbol of the position. -/
def init_target_effect (t : ipft_tracer) (i : Nat) (p : bpf_program) : bpf_program :=
  match symsdb_pos2syms_get t.sdb i 0 with
  | none => { p with autoload := false }
  | some sym => { p with attach_target := some sym }

/-- A tracer whose database holds the single symbol `a`, at position 0. -/
def tracer_one_symbol (backend : String) : ipft_tracer :=
  { demo_tracer backend with sdb := ⟨[("a", ⟨0, 1, 2⟩)]⟩ }

/-! # Theorems -/

/-! ## Helper lemmas: counters -/

@[simp] theorem log_attach_stat (s : State) (c : Call) :
    (s.log c).attach_stat = s.attach_stat := rfl

@[simp] theorem log_accounted (s : State) (c : Call) :
    (s.log c).accounted = s.accounted := rfl

@[simp] theorem inc_filtered_accounted (s : State) :
    s.inc_filtered.accounted = s.accounted + 1 := by
  simp only [State.accounted, State.inc_filtered]; omega

@[simp] theorem add_failed_accounted (s : State) (n : Nat) :
    (s.add_failed n).accounted = s.accounted + n := by
  simp only [State.accounted, State.add_failed]; omega

@[simp] theorem add_succeeded_accounted (s : State) (n : Nat) :
    (s.add_succeeded n).accounted = s.accounted + n := by
  simp only [State.accounted, State.add_succeeded]; omega

@[simp] theorem inc_filtered_total (s : State) :
    s.inc_filtered.attach_stat.total = s.attach_stat.total := rfl

@[simp] theorem add_failed_total (s : State) (n : Nat) :
    (s.add_failed n).attach_stat.total = s.attach_stat.total := rfl

@[simp] theorem add_succeeded_total (s : State) (n : Nat) :
    (s.add_succeeded n).attach_stat.total = s.attach_stat.total := rfl

/-- One call of `attach_cb` returns 0 or -1, keeps `total`, and accounts
for the symbol when it returns 0. -/
theorem attach_cb_spec (k : Kernel) (t : ipft_tracer) (sym : String) (si : ipft_syminfo)
    (s : State) :
    ((attach_cb k t sym si s).1 = 0 ∨ (attach_cb k t sym si s).1 = -1) ∧
    (attach_cb k t sym si s).2.attach_stat.total = s.attach_stat.total ∧
    ((attach_cb k t sym si s).1 = 0 →
      (attach_cb k t sym si s).2.accounted = s.accounted + 1) := by
  unfold attach_cb
  split
  · simp
  · split
    · simp
    · split <;> simp

/-- The kprobe walk returns 0 or -1, keeps `total`, and accounts for every
symbol of the list when it returns 0. -/
theorem sym2info_foreach_attach_cb (k : Kernel) (t : ipft_tracer) :
    ∀ (l : List (String × ipft_syminfo)) (s : State),
    ((sym2info_foreach_list (attach_cb k t) l s).1 = 0 ∨
      (sym2info_foreach_list (attach_cb k t) l s).1 = -1) ∧
    (sym2info_foreach_list (attach_cb k t) l s).2.attach_stat.total = s.attach_stat.total ∧
    ((sym2info_foreach_list (attach_cb k t) l s).1 = 0 →
      (sym2info_foreach_list (attach_cb k t) l s).2.accounted = s.accounted + l.length)
  | [], s => by simp [sym2info_foreach_list]
  | (sym, si) :: rest, s => by
    have h := attach_cb_spec k t sym si s
    have ih := sym2info_foreach_attach_cb k t rest (attach_cb k t sym si s).2
    simp only [sym2info_foreach_list]
    by_cases hc : (attach_cb k t sym si s).1 = -1
    · simp [hc, h.2.1]
    · have h0 : (attach_cb k t sym si s).1 = 0 := by
        rcases h.1 with h1 | h1
        · exact h1
        · exact absurd h1 hc
      simp only [beq_iff_eq, hc, if_false, List.length_cons]
      refine ⟨ih.1, ih.2.1.trans h.2.1, fun hr => ?_⟩
      rw [ih.2.2 hr, h.2.2 h0]; omega

/-- The collecting loop of kprobe-multi keeps `total`; each symbol either
joins the list or is counted as filtered. -/
theorem kprobe_multi_collect_spec (t : ipft_tracer) :
    ∀ (l acc : List String) (s : State),
    (kprobe_multi_collect t l acc s).2.attach_stat.total = s.attach_stat.total ∧
    (kprobe_multi_collect t l acc s).1.length + (kprobe_multi_collect t l acc s).2.accounted
      = acc.length + s.accounted + l.length
  | [], acc, s => by simp [kprobe_multi_collect]
  | sym :: rest, acc, s => by
    simp only [kprobe_multi_collect]
    split
    · have ih := kprobe_multi_collect_spec t rest acc s.inc_filtered
      refine ⟨by simpa using ih.1, ?_⟩
      rw [ih.2]; simp; omega
    · have ih := kprobe_multi_collect_spec t rest (acc ++ [sym]) s
      refine ⟨ih.1, ?_⟩
      rw [ih.2]; simp; omega

/-- One position of kprobe-multi returns 0 or -1, keeps `total`, and
accounts for every symbol of the position when it returns 0. -/
theorem attach_kprobe_multi_pos_spec (k : Kernel) (t : ipft_tracer) (i : Nat) (s : State) :
    ((attach_kprobe_multi_pos k t i s).1 = 0 ∨ (attach_kprobe_multi_pos k t i s).1 = -1) ∧
    (attach_kprobe_multi_pos k t i s).2.attach_stat.total = s.attach_stat.total ∧
    ((attach_kprobe_multi_pos k t i s).1 = 0 →
      (attach_kprobe_multi_pos k t i s).2.accounted
        = s.accounted + (symsdb_pos2syms t.sdb i).length) := by
  have hc := kprobe_multi_collect_spec t (symsdb_pos2syms t.sdb i) [] s
  unfold attach_kprobe_multi_pos
  split
  · simp
  · split
    · simp
    · dsimp only
      split
      · refine ⟨Or.inl rfl, by simpa using hc.1, fun _ => ?_⟩
        simp only [add_failed_accounted, log_accounted]
        have := hc.2; simp at this; omega
      · refine ⟨Or.inl rfl, by simpa using hc.1, fun _ => ?_⟩
        simp only [add_succeeded_accounted, log_accounted]
        have := hc.2; simp at this; omega

/-- The kprobe-multi loop over positions. -/
theorem attach_kprobe_multi_loop_spec (k : Kernel) (t : ipft_tracer) :
    ∀ (ps : List Nat) (s : State),
    ((attach_kprobe_multi_loop k t ps s).1 = 0 ∨ (attach_kprobe_multi_loop k t ps s).1 = -1) ∧
    (attach_kprobe_multi_loop k t ps s).2.attach_stat.total = s.attach_stat.total ∧
    ((attach_kprobe_multi_loop k t ps s).1 = 0 →
      (attach_kprobe_multi_loop k t ps s).2.accounted = s.accounted + listed t.sdb ps)
  | [], s => by simp [attach_kprobe_multi_loop, listed]
  | i :: rest, s => by
    have h := attach_kprobe_multi_pos_spec k t i s
    have ih := attach_kprobe_multi_loop_spec k t rest (attach_kprobe_multi_pos k t i s).2
    simp only [attach_kprobe_multi_loop]
    by_cases hc : (attach_kprobe_multi_pos k t i s).1 = -1
    · simp [hc, h.2.1]
    · have h0 : (attach_kprobe_multi_pos k t i s).1 = 0 := by
        rcases h.1 with h1 | h1
        · exact h1
        · exact absurd h1 hc
      simp only [beq_iff_eq, hc, if_false]
      refine ⟨ih.1, ih.2.1.trans h.2.1, fun hr => ?_⟩
      rw [ih.2.2 hr, h.2.2 h0]
      simp [listed]; omega

/-- One symbol of the ftrace pass returns 0 or -1, keeps `total`, and
accounts for the symbol when it returns 0. -/
theorem attach_ftrace_sym_spec (k : Kernel) (t : ipft_tracer) (ep xp : bpf_program)
    (sym : String) (s : State) :
    ((attach_ftrace_sym k t ep xp sym s).1 = 0 ∨ (attach_ftrace_sym k t ep xp sym s).1 = -1) ∧
    (attach_ftrace_sym k t ep xp sym s).2.attach_stat.total = s.attach_stat.total ∧
    ((attach_ftrace_sym k t ep xp sym s).1 = 0 →
      (attach_ftrace_sym k t ep xp sym s).2.accounted = s.accounted + 1) := by
  unfold attach_ftrace_sym
  dsimp only
  split
  · simp
  · split
    · simp
    · split
      · simp
      · split
        · simp
        · split <;> simp

/-- The ftrace loop over the symbols of one position. -/
theorem attach_ftrace_syms_spec (k : Kernel) (t : ipft_tracer) (ep xp : bpf_program) :
    ∀ (l : List String) (s : State),
    ((attach_ftrace_syms k t ep xp l s).1 = 0 ∨ (attach_ftrace_syms k t ep xp l s).1 = -1) ∧
    (attach_ftrace_syms k t ep xp l s).2.attach_stat.total = s.attach_stat.total ∧
    ((attach_ftrace_syms k t ep xp l s).1 = 0 →
      (attach_ftrace_syms k t ep xp l s).2.accounted = s.accounted + l.length)
  | [], s => by simp [attach_ftrace_syms]
  | sym :: rest, s => by
    have h := attach_ftrace_sym_spec k t ep xp sym s
    have ih := attach_ftrace_syms_spec k t ep xp rest (attach_ftrace_sym k t ep xp sym s).2
    simp only [attach_ftrace_syms]
    by_cases hc : (attach_ftrace_sym k t ep xp sym s).1 = -1
    · simp [hc, h.2.1]
    · have h0 : (attach_ftrace_sym k t ep xp sym s).1 = 0 := by
        rcases h.1 with h1 | h1
        · exact h1
        · exact absurd h1 hc
      simp only [beq_iff_eq, hc, if_false, List.length_cons]
      refine ⟨ih.1, ih.2.1.trans h.2.1, fun hr => ?_⟩
      rw [ih.2.2 hr, h.2.2 h0]; omega

/-- One position of the ftrace pass. -/
theorem attach_ftrace_pos_spec (k : Kernel) (t : ipft_tracer) (i : Nat) (s : State) :
    ((attach_ftrace_pos k t i s).1 = 0 ∨ (attach_ftrace_pos k t i s).1 = -1) ∧
    (attach_ftrace_pos k t i s).2.attach_stat.total = s.attach_stat.total ∧
    ((attach_ftrace_pos k t i s).1 = 0 →
      (attach_ftrace_pos k t i s).2.accounted
        = s.accounted + (symsdb_pos2syms t.sdb i).length) := by
  unfold attach_ftrace_pos
  split
  · simp
  · split
    · simp
    · exact attach_ftrace_syms_spec k t _ _ _ s

/-- The ftrace loop over positions. -/
theorem attach_ftrace_loop_spec (k : Kernel) (t : ipft_tracer) :
    ∀ (ps : List Nat) (s : State),
    ((attach_ftrace_loop k t ps s).1 = 0 ∨ (attach_ftrace_loop k t ps s).1 = -1) ∧
    (attach_ftrace_loop k t ps s).2.attach_stat.total = s.attach_stat.total ∧
    ((attach_ftrace_loop k t ps s).1 = 0 →
      (attach_ftrace_loop k t ps s).2.accounted = s.accounted + listed t.sdb ps)
  | [], s => by simp [attach_ftrace_loop, listed]
  | i :: rest, s => by
    have h := attach_ftrace_pos_spec k t i s
    have ih := attach_ftrace_loop_spec k t rest (attach_ftrace_pos k t i s).2
    simp only [attach_ftrace_loop]
    by_cases hc : (attach_ftrace_pos k t i s).1 = -1
    · simp [hc, h.2.1]
    · have h0 : (attach_ftrace_pos k t i s).1 = 0 := by
        rcases h.1 with h1 | h1
        · exact h1
        · exact absurd h1 hc
      simp only [beq_iff_eq, hc, if_false]
      refine ⟨ih.1, ih.2.1.trans h.2.1, fun hr => ?_⟩
      rw [ih.2.2 hr, h.2.2 h0]
      simp [listed]; omega

/-- Among the positions below `n`, exactly one equals `p` when `p < n`. -/
theorem sum_range_indicator (p : Nat) :
    ∀ n : Nat, p < n → ((List.range n).map (fun i => if p = i then 1 else 0)).sum = 1
  | 0, h => absurd h (Nat.not_lt_zero p)
  | n + 1, h => by
    rw [List.range_succ, List.map_append, List.sum_append]
    by_cases hp : p = n
    · subst hp
      have hz : ((List.range p).map (fun i => if p = i then 1 else 0)).sum = 0 := by
        apply List.sum_eq_zero
        intro x hx
        simp only [List.mem_map, List.mem_range] at hx
        obtain ⟨i, hi, rfl⟩ := hx
        have : p ≠ i := by omega
        simp [this]
      simp [hz]
    · have hlt : p < n := by omega
      rw [sum_range_indicator p n hlt]
      simp [hp]

/-- When every symbol sits at a position below `n`, the per-position lists
for positions `0 .. n-1` hold as many names as the table has symbols. -/
theorem listed_range_eq_length (n : Nat) :
    ∀ (l : List (String × ipft_syminfo)), (∀ p ∈ l, p.2.skb_pos < n) →
      listed ⟨l⟩ (List.range n) = l.length
  | [], _ => by simp [listed, symsdb_pos2syms]
  | p :: rest, h => by
    have ih := listed_range_eq_length n rest (fun q hq => h q (List.mem_cons_of_mem _ hq))
    have hp : p.2.skb_pos < n := h p (List.mem_cons_self _ _)
    have hsplit : ∀ i : Nat, (symsdb_pos2syms ⟨p :: rest⟩ i).length
        = (if p.2.skb_pos = i then 1 else 0) + (symsdb_pos2syms ⟨rest⟩ i).length := by
      intro i
      simp only [symsdb_pos2syms, List.length_map, List.filter_cons]
      by_cases hpi : p.2.skb_pos = i
      · simp [hpi]; omega
      · simp [hpi]
    simp only [listed] at ih ⊢
    simp only [hsplit, List.sum_map_add, sum_range_indicator _ n hp, ih, List.length_cons]
    omega

/-- The counters after `attach_all`: `total` is the size of the table, the
result is 0 or -1, and a result of 0 means every symbol is accounted for. -/
theorem attach_all_spec (k : Kernel) (t : ipft_tracer) (s : State)
    (hpos : ∀ p ∈ t.sdb.syms, p.2.skb_pos < k.MAX_SKB_POS) :
    ((attach_all k t s).1 = 0 ∨ (attach_all k t s).1 = -1) ∧
    (attach_all k t s).2.attach_stat.total = symsdb_get_sym2info_total t.sdb ∧
    ((attach_all k t s).1 = 0 →
      (attach_all k t s).2.accounted = s.accounted + symsdb_get_sym2info_total t.sdb) := by
  have hl : listed t.sdb (List.range k.MAX_SKB_POS) = t.sdb.syms.length :=
    listed_range_eq_length k.MAX_SKB_POS t.sdb.syms hpos
  unfold attach_all
  dsimp only
  split
  · have h := sym2info_foreach_attach_cb k t t.sdb.syms
      { s with attach_stat := { s.attach_stat with total := symsdb_get_sym2info_total t.sdb } }
    simp only [attach_kprobe, symsdb_sym2info_foreach]
    split
    · simp [h.2.1]
    · rename_i hne
      simp only [beq_iff_eq] at hne
      have h0 := h.1.resolve_right hne
      simp only [if_false]
      refine ⟨Or.inl rfl, by simpa using h.2.1, fun _ => ?_⟩
      have := h.2.2 h0
      simpa [State.accounted, symsdb_get_sym2info_total] using this
  · split
    · have h := attach_kprobe_multi_loop_spec k t (List.range k.MAX_SKB_POS)
        { s with attach_stat := { s.attach_stat with total := symsdb_get_sym2info_total t.sdb } }
      simp only [attach_kprobe_multi]
      split
      · simp [h.2.1]
      · rename_i hne
        simp only [beq_iff_eq] at hne
        have h0 := h.1.resolve_right hne
        refine ⟨h.1, by simpa using h.2.1, fun _ => ?_⟩
        have := h.2.2 h0
        rw [hl] at this
        simpa [State.accounted, symsdb_get_sym2info_total] using this
    · split
      · simp only [attach_ftrace]
        split
        · simp
        · have h := attach_ftrace_loop_spec k t (List.range k.MAX_SKB_POS)
            { s with attach_stat := { s.attach_stat with total := symsdb_get_sym2info_total t.sdb } }
          split
          · simp [h.2.1]
          · rename_i hne
            simp only [beq_iff_eq] at hne
            have h0 := h.1.resolve_right hne
            refine ⟨h.1, by simpa using h.2.1, fun _ => ?_⟩
            have := h.2.2 h0
            rw [hl] at this
            simpa [State.accounted, symsdb_get_sym2info_total] using this
      · simp

/-! ## C1: the counters add up to `total` -/

/-- C1, as stated, fails: with the ftrace backend, when the kernel refuses a
raw tracepoint for the first symbol that passes the filter, `attach_all`
returns -1 with `total = 3` and nothing counted. -/
theorem attach_all_ftrace_failure_not_accounted :
    (attach_all kernel_raw_tp_fails (demo_tracer "ftrace") State.init).1 = -1 ∧
    (attach_all kernel_raw_tp_fails (demo_tracer "ftrace") State.init).2.attach_stat
      = ⟨3, 0, 0, 0⟩ ∧
    ¬ ((attach_all kernel_raw_tp_fails (demo_tracer "ftrace") State.init).2.attach_stat.filtered
        + (attach_all kernel_raw_tp_fails (demo_tracer "ftrace") State.init).2.attach_stat.succeeded
        + (attach_all kernel_raw_tp_fails (demo_tracer "ftrace") State.init).2.attach_stat.failed
      = (attach_all kernel_raw_tp_fails (demo_tracer "ftrace") State.init).2.attach_stat.total) := by
  decide

/-- C1, amended: for every kernel, filter, backend and database whose
symbols sit at positions below `MAX_SKB_POS`, `attach_all` started from the
zeroed counters sets `total` to the full symbol count of the database, and
whenever it returns 0 the counters satisfy
`filtered + succeeded + failed = total`. -/
theorem attach_all_counters_add_up (k : Kernel) (t : ipft_tracer)
    (hpos : ∀ p ∈ t.sdb.syms, p.2.skb_pos < k.MAX_SKB_POS) :
    (attach_all k t State.init).2.attach_stat.total = symsdb_get_sym2info_total t.sdb ∧
    ((attach_all k t State.init).1 = 0 →
      (attach_all k t State.init).2.attach_stat.filtered
        + (attach_all k t State.init).2.attach_stat.succeeded
        + (attach_all k t State.init).2.attach_stat.failed
        = (attach_all k t State.init).2.attach_stat.total) := by
  have h := attach_all_spec k t State.init hpos
  refine ⟨h.2.1, fun hret => ?_⟩
  have h2 := h.2.2 hret
  rw [h.2.1]
  simpa [State.accounted, State.init] using h2

/-- Witness for C1: the kprobe-multi pass over the three-symbol database. -/
theorem attach_all_counters_add_up_witness :
    (∀ p ∈ (demo_tracer "kprobe-multi").sdb.syms, p.2.skb_pos < demo_kernel.MAX_SKB_POS) ∧
    (attach_all demo_kernel (demo_tracer "kprobe-multi") State.init).1 = 0 ∧
    (attach_all demo_kernel (demo_tracer "kprobe-multi") State.init).2.attach_stat.total
      = symsdb_get_sym2info_total (demo_tracer "kprobe-multi").sdb ∧
    (attach_all demo_kernel (demo_tracer "kprobe-multi") State.init).2.attach_stat.filtered
      + (attach_all demo_kernel (demo_tracer "kprobe-multi") State.init).2.attach_stat.succeeded
      + (attach_all demo_kernel (demo_tracer "kprobe-multi") State.init).2.attach_stat.failed
      = (attach_all demo_kernel (demo_tracer "kprobe-multi") State.init).2.attach_stat.total :=
  ⟨by decide, by decide,
    (attach_all_counters_add_up demo_kernel (demo_tracer "kprobe-multi") (by decide)).1,
    (attach_all_counters_add_up demo_kernel (demo_tracer "kprobe-multi") (by decide)).2
      (by decide)⟩

/-! ## C2: what one visited symbol does to the counters -/

/-- The collecting loop of kprobe-multi in closed form: the symbols that pass
the regex are appended in order, the others are counted as filtered, and no
call is made. -/
theorem kprobe_multi_collect_eq (t : ipft_tracer) :
    ∀ (l acc : List String) (s : State),
    kprobe_multi_collect t l acc s
      = (acc ++ l.filter t.re, s.add_filtered (l.filter (fun x => !t.re x)).length)
  | [], acc, s => by simp [kprobe_multi_collect, State.add_filtered]
  | sym :: rest, acc, s => by
    simp only [kprobe_multi_collect]
    cases hre : t.re sym
    · simp only [Bool.not_false, if_true]
      rw [kprobe_multi_collect_eq t rest acc s.inc_filtered]
      simp [List.filter_cons, hre, State.add_filtered, State.inc_filtered]
      omega
    · simp only [Bool.not_true, Bool.false_eq_true, if_false]
      rw [kprobe_multi_collect_eq t rest (acc ++ [sym]) s]
      simp [List.filter_cons, hre]

/-- C2, as stated, fails: in the ftrace pass a symbol that passes the filter
and whose raw tracepoint is refused changes none of the counters. -/
theorem ftrace_failed_symbol_not_counted :
    (demo_tracer "ftrace").re "a" = true ∧
    (attach_ftrace_sym kernel_raw_tp_fails (demo_tracer "ftrace")
        ⟨"ipft_main0", true, none⟩ ⟨"ipft_main_return0", true, none⟩ "a" State.init).1 = -1 ∧
    (attach_ftrace_sym kernel_raw_tp_fails (demo_tracer "ftrace")
        ⟨"ipft_main0", true, none⟩ ⟨"ipft_main_return0", true, none⟩ "a" State.init).2.attach_stat
      = State.init.attach_stat := by
  decide

/-- C2, amended.  A visited symbol that fails the regex increments exactly
`filtered` by one, in all three backends.  A visited symbol that passes the
regex leaves `filtered` unchanged and: in the kprobe pass, once its entry
program is found, increments `succeeded` by one when the kernel accepts the
kprobe and `failed` by one when it refuses; in the kprobe-multi pass joins
the batch of its position, and a position whose body runs to its end adds the
size of that batch to exactly one of `succeeded` and `failed`; in the ftrace
pass increments `succeeded` by one when its body returns 0 and changes no
counter when its body returns -1. -/
theorem visited_symbol_counters (k : Kernel) (t : ipft_tracer) (sym : String) (s : State) :
    (t.re sym = false →
      (∀ si, attach_cb k t sym si s = (0, s.inc_filtered)) ∧
      (∀ acc, kprobe_multi_collect t [sym] acc s = (acc, s.inc_filtered)) ∧
      (∀ ep xp, attach_ftrace_sym k t ep xp sym s = (0, s.inc_filtered))) ∧
    (t.re sym = true →
      (∀ si prog, bpf_object__find_program_by_name t.bpf (main_name si.skb_pos) = some prog →
        (k.attach_kprobe prog.name sym = true ∧
          (attach_cb k t sym si s).1 = 0 ∧
          (attach_cb k t sym si s).2.attach_stat = (s.add_succeeded 1).attach_stat) ∨
        (k.attach_kprobe prog.name sym = false ∧
          (attach_cb k t sym si s).1 = -1 ∧
          (attach_cb k t sym si s).2.attach_stat = (s.add_failed 1).attach_stat)) ∧
      (∀ acc, kprobe_multi_collect t [sym] acc s = (acc ++ [sym], s)) ∧
      (∀ ep xp,
        ((attach_ftrace_sym k t ep xp sym s).1 = 0 ∧
          (attach_ftrace_sym k t ep xp sym s).2.attach_stat = (s.add_succeeded 1).attach_stat) ∨
        ((attach_ftrace_sym k t ep xp sym s).1 = -1 ∧
          (attach_ftrace_sym k t ep xp sym s).2.attach_stat = s.attach_stat))) ∧
    (∀ i, (attach_kprobe_multi_pos k t i s).1 = 0 →
      (attach_kprobe_multi_pos k t i s).2.attach_stat
        = ((s.add_filtered ((symsdb_pos2syms t.sdb i).filter (fun x => !t.re x)).length).add_succeeded
            ((symsdb_pos2syms t.sdb i).filter t.re).length).attach_stat ∨
      (attach_kprobe_multi_pos k t i s).2.attach_stat
        = ((s.add_filtered ((symsdb_pos2syms t.sdb i).filter (fun x => !t.re x)).length).add_failed
            ((symsdb_pos2syms t.sdb i).filter t.re).length).attach_stat) := by
  refine ⟨fun hre => ⟨?_, ?_, ?_⟩, fun hre => ⟨?_, ?_, ?_⟩, ?_⟩
  · intro si; simp [attach_cb, hre]
  · intro acc; simp [kprobe_multi_collect, hre]
  · intro ep xp; simp [attach_ftrace_sym, hre]
  · intro si prog hfind
    cases hk : k.attach_kprobe prog.name sym
    · right; simp [attach_cb, hre, hfind, hk, State.add_failed, State.log]
    · left; simp [attach_cb, hre, hfind, hk, State.add_succeeded, State.log]
  · intro acc; simp [kprobe_multi_collect, hre]
  · intro ep xp
    unfold attach_ftrace_sym
    simp only [hre, Bool.not_true, Bool.false_eq_true, if_false]
    split
    · right; simp
    · split
      · right; simp
      · split
        · right; simp
        · split
          · right; simp
          · left; simp [State.add_succeeded, State.log]
  · intro i hret
    unfold attach_kprobe_multi_pos at hret ⊢
    split
    · rename_i hnone; simp [hnone] at hret
    · rename_i prog hsome
      simp only [hsome] at hret
      split
      · rename_i hcal; simp [hcal] at hret
      · simp only [kprobe_multi_collect_eq, List.nil_append]
        split
        · right; rfl
        · left; rfl

/-- Witness for C2 at the symbol `x`, which the filter rejects, and at the
symbol `a`, which it accepts, with the kernel refusing every kprobe. -/
theorem visited_symbol_counters_witness :
    (demo_tracer "kprobe").re "x" = false ∧
    attach_cb kernel_attach_fails (demo_tracer "kprobe") "x" ⟨1, 1, 2⟩ State.init
      = (0, State.init.inc_filtered) ∧
    (demo_tracer "kprobe").re "a" = true ∧
    (attach_cb kernel_attach_fails (demo_tracer "kprobe") "a" ⟨0, 1, 2⟩ State.init).2.attach_stat
      = ⟨0, 0, 1, 0⟩ :=
  ⟨by decide,
   ((visited_symbol_counters kernel_attach_fails (demo_tracer "kprobe") "x" State.init).1
      (by decide)).1 ⟨1, 1, 2⟩,
   by decide,
   (((visited_symbol_counters kernel_attach_fails (demo_tracer "kprobe") "a" State.init).2.1
      (by decide)).1 ⟨0, 1, 2⟩ ⟨"ipft_main0", true, none⟩ (by decide)).elim
      (fun h => absurd h.1 (by decide)) (fun h => h.2.2)⟩

/-! ## C3: demultiplexing of the record stream -/

/-- Reading a stream of SAMPLE and LOST records on which the output callback
never reports -1: the reader continues to the end, and the calls made are
exactly one `output_on_trace` per SAMPLE, in order. -/
theorem perf_event_read_simple_known (k : Kernel) :
    ∀ (l : List perf_sample_data) (s : State),
    (∀ e ∈ l, e.header.type = PERF_RECORD_SAMPLE ∨ e.header.type = PERF_RECORD_LOST) →
    (∀ e ∈ l, e.header.type = PERF_RECORD_SAMPLE → k.output_on_trace e.data ≠ -1) →
    ∀ (rest : List perf_sample_data),
    perf_event_read_simple k (l ++ rest) s
      = perf_event_read_simple k rest
          { s with calls := s.calls ++ (samples l).map (fun e => Call.output_on_trace e.data) }
  | [], s, _, _, rest => by simp [samples]
  | e :: l, s, hk, hok, rest => by
    have hk1 := hk e (List.mem_cons_self _ _)
    have ih := fun s1 => perf_event_read_simple_known k l s1
      (fun x hx => hk x (List.mem_cons_of_mem _ hx))
      (fun x hx => hok x (List.mem_cons_of_mem _ hx)) rest
    have hls : PERF_RECORD_LOST ≠ PERF_RECORD_SAMPLE := by decide
    simp only [List.cons_append, perf_event_read_simple]
    by_cases hs : e.header.type = PERF_RECORD_SAMPLE
    · have hne := hok e (List.mem_cons_self _ _) hs
      simp only [trace_cb, hs, if_true, beq_iff_eq, hne, if_false, List.append_eq]
      rw [ih]
      simp [samples, List.filter_cons, hs, State.log]
    · have hl : e.header.type = PERF_RECORD_LOST := hk1.resolve_left hs
      simp only [trace_cb, hl, hls, if_false, if_true, List.append_eq]
      rw [ih]
      simp [samples, List.filter_cons, hl, hls]

/-- The count of `output_on_trace` calls after appending one call per
element of a list. -/
theorem on_trace_calls_append (s : State) (l : List perf_sample_data) :
    State.on_trace_calls
        { s with calls := s.calls ++ l.map (fun e => Call.output_on_trace e.data) }
      = s.on_trace_calls + l.length := by
  simp only [State.on_trace_calls, List.filter_append, List.length_append]
  congr 1
  induction l with
  | nil => rfl
  | cons e l ih => simp [List.filter_cons, ih]

/-- C3: for every stream made of SAMPLE and LOST records in any order,
followed by one record of another type, with `output_on_trace` not failing
on any sample: each SAMPLE and each LOST record yields "continue", a LOST
record makes no call, the unknown record yields an error and makes no call,
and reading the whole stream ends with an error after exactly one
`output_on_trace` call per SAMPLE record, in stream order. -/
theorem trace_cb_demultiplexes (k : Kernel) (l : List perf_sample_data)
    (u : perf_sample_data) (s : State)
    (hkind : ∀ e ∈ l, e.header.type = PERF_RECORD_SAMPLE ∨ e.header.type = PERF_RECORD_LOST)
    (hok : ∀ e ∈ l, e.header.type = PERF_RECORD_SAMPLE → k.output_on_trace e.data ≠ -1)
    (hu1 : u.header.type ≠ PERF_RECORD_SAMPLE) (hu2 : u.header.type ≠ PERF_RECORD_LOST) :
    (∀ e ∈ l, ∀ s1, (trace_cb k e s1).1 = bpf_perf_event_ret.LIBBPF_PERF_EVENT_CONT) ∧
    (∀ e ∈ l, e.header.type = PERF_RECORD_LOST → ∀ s1, (trace_cb k e s1).2 = s1) ∧
    (∀ s1, trace_cb k u s1 = (bpf_perf_event_ret.LIBBPF_PERF_EVENT_ERROR, s1)) ∧
    (perf_event_read_simple k (l ++ [u]) s).1 = bpf_perf_event_ret.LIBBPF_PERF_EVENT_ERROR ∧
    (perf_event_read_simple k (l ++ [u]) s).2.calls
      = s.calls ++ (samples l).map (fun e => Call.output_on_trace e.data) ∧
    (perf_event_read_simple k (l ++ [u]) s).2.on_trace_calls
      = s.on_trace_calls + (samples l).length := by
  have hu : ∀ s1, trace_cb k u s1 = (bpf_perf_event_ret.LIBBPF_PERF_EVENT_ERROR, s1) := by
    intro s1; simp [trace_cb, hu1, hu2]
  have hrun := perf_event_read_simple_known k l s hkind hok [u]
  refine ⟨?_, ?_, hu, ?_, ?_, ?_⟩
  · intro e he s1
    by_cases hs : e.header.type = PERF_RECORD_SAMPLE
    · simp [trace_cb, hs, hok e he hs]
    · have hls : PERF_RECORD_LOST ≠ PERF_RECORD_SAMPLE := by decide
      simp [trace_cb, (hkind e he).resolve_left hs, hls]
  · intro e he hl s1
    have hls : PERF_RECORD_LOST ≠ PERF_RECORD_SAMPLE := by decide
    simp [trace_cb, hl, hls]
  · rw [hrun]; simp [perf_event_read_simple, hu]
  · rw [hrun]; simp [perf_event_read_simple, hu]
  · rw [hrun]
    simp only [perf_event_read_simple, hu]
    simpa using on_trace_calls_append s (samples l)

/-- Witness for C3: two samples and a lost record, then an unknown record. -/
theorem trace_cb_demultiplexes_witness :
    (perf_event_read_simple demo_kernel
        ([sample_record [1], lost_record, sample_record [2]] ++ [unknown_record]) State.init).1
      = bpf_perf_event_ret.LIBBPF_PERF_EVENT_ERROR ∧
    (perf_event_read_simple demo_kernel
        ([sample_record [1], lost_record, sample_record [2]] ++ [unknown_record])
        State.init).2.on_trace_calls
      = State.init.on_trace_calls + (samples [sample_record [1], lost_record, sample_record [2]]).length ∧
    (samples [sample_record [1], lost_record, sample_record [2]]).length = 2 :=
  have h := trace_cb_demultiplexes demo_kernel [sample_record [1], lost_record, sample_record [2]]
    unknown_record State.init (by decide) (by decide) (by decide) (by decide)
  ⟨h.2.2.2.1, h.2.2.2.2.2, by decide⟩

/-! ## C4: the finalize hooks -/

/-- Counting after one more recorded call. -/
theorem count_call_log (s : State) (x c : Call) :
    (s.log x).count_call c = s.count_call c + (if x = c then 1 else 0) := by
  simp only [State.count_call, State.log, List.count_append, List.count_singleton, beq_iff_eq]

@[simp] theorem count_call_inc_filtered (s : State) (c : Call) :
    s.inc_filtered.count_call c = s.count_call c := rfl

@[simp] theorem count_call_add_filtered (s : State) (n : Nat) (c : Call) :
    (s.add_filtered n).count_call c = s.count_call c := rfl

@[simp] theorem count_call_add_failed (s : State) (n : Nat) (c : Call) :
    (s.add_failed n).count_call c = s.count_call c := rfl

@[simp] theorem count_call_add_succeeded (s : State) (n : Nat) (c : Call) :
    (s.add_succeeded n).count_call c = s.count_call c := rfl

/-- `attach_cb` calls no finalize hook. -/
theorem attach_cb_hooks (k : Kernel) (t : ipft_tracer) (sym : String) (si : ipft_syminfo)
    (s : State) (c : Call) (hc : c = Call.output_post_trace ∨ c = Call.script_exec_fini) :
    (attach_cb k t sym si s).2.count_call c = s.count_call c := by
  unfold attach_cb
  rcases hc with rfl | rfl <;> (split <;> [simp; (split <;> [rfl; (split <;> simp [count_call_log])])])

/-- The kprobe walk calls no finalize hook. -/
theorem sym2info_foreach_hooks (k : Kernel) (t : ipft_tracer) (c : Call)
    (hc : c = Call.output_post_trace ∨ c = Call.script_exec_fini) :
    ∀ (l : List (String × ipft_syminfo)) (s : State),
    (sym2info_foreach_list (attach_cb k t) l s).2.count_call c = s.count_call c
  | [], s => rfl
  | (sym, si) :: rest, s => by
    simp only [sym2info_foreach_list]
    split
    · exact attach_cb_hooks k t sym si s c hc
    · rw [sym2info_foreach_hooks k t c hc rest]
      exact attach_cb_hooks k t sym si s c hc

/-- One position of kprobe-multi calls no finalize hook. -/
theorem attach_kprobe_multi_pos_hooks (k : Kernel) (t : ipft_tracer) (i : Nat) (s : State)
    (c : Call) (hc : c = Call.output_post_trace ∨ c = Call.script_exec_fini) :
    (attach_kprobe_multi_pos k t i s).2.count_call c = s.count_call c := by
  unfold attach_kprobe_multi_pos
  simp only [kprobe_multi_collect_eq]
  rcases hc with rfl | rfl <;>
    (split <;> [rfl; (split <;> [rfl; (split <;> simp [count_call_log])])])

/-- The kprobe-multi loop calls no finalize hook. -/
theorem attach_kprobe_multi_loop_hooks (k : Kernel) (t : ipft_tracer) (c : Call)
    (hc : c = Call.output_post_trace ∨ c = Call.script_exec_fini) :
    ∀ (ps : List Nat) (s : State),
    (attach_kprobe_multi_loop k t ps s).2.count_call c = s.count_call c
  | [], s => rfl
  | i :: rest, s => by
    simp only [attach_kprobe_multi_loop]
    split
    · exact attach_kprobe_multi_pos_hooks k t i s c hc
    · rw [attach_kprobe_multi_loop_hooks k t c hc rest]
      exact attach_kprobe_multi_pos_hooks k t i s c hc

/-- One symbol of the ftrace pass calls no finalize hook. -/
theorem attach_ftrace_sym_hooks (k : Kernel) (t : ipft_tracer) (ep xp : bpf_program)
    (sym : String) (s : State) (c : Call)
    (hc : c = Call.output_post_trace ∨ c = Call.script_exec_fini) :
    (attach_ftrace_sym k t ep xp sym s).2.count_call c = s.count_call c := by
  unfold attach_ftrace_sym
  dsimp only
  rcases hc with rfl | rfl <;>
    (repeat (first | split | simp [count_call_log]))

/-- The ftrace loop over symbols calls no finalize hook. -/
theorem attach_ftrace_syms_hooks (k : Kernel) (t : ipft_tracer) (ep xp : bpf_program)
    (c : Call) (hc : c = Call.output_post_trace ∨ c = Call.script_exec_fini) :
    ∀ (l : List String) (s : State),
    (attach_ftrace_syms k t ep xp l s).2.count_call c = s.count_call c
  | [], s => rfl
  | sym :: rest, s => by
    simp only [attach_ftrace_syms]
    split
    · exact attach_ftrace_sym_hooks k t ep xp sym s c hc
    · rw [attach_ftrace_syms_hooks k t ep xp c hc rest]
      exact attach_ftrace_sym_hooks k t ep xp sym s c hc

/-- The ftrace loop over positions calls no finalize hook. -/
theorem attach_ftrace_loop_hooks (k : Kernel) (t : ipft_tracer) (c : Call)
    (hc : c = Call.output_post_trace ∨ c = Call.script_exec_fini) :
    ∀ (ps : List Nat) (s : State),
    (attach_ftrace_loop k t ps s).2.count_call c = s.count_call c
  | [], s => rfl
  | i :: rest, s => by
    have hpos : ∀ s1, (attach_ftrace_pos k t i s1).2.count_call c = s1.count_call c := by
      intro s1
      unfold attach_ftrace_pos
      split
      · rfl
      · split
        · rfl
        · exact attach_ftrace_syms_hooks k t _ _ c hc _ s1
    simp only [attach_ftrace_loop]
    split
    · exact hpos s
    · rw [attach_ftrace_loop_hooks k t c hc rest]
      exact hpos s

/-- `attach_all` calls no finalize hook. -/
theorem attach_all_hooks (k : Kernel) (t : ipft_tracer) (s : State) (c : Call)
    (hc : c = Call.output_post_trace ∨ c = Call.script_exec_fini) :
    (attach_all k t s).2.count_call c = s.count_call c := by
  unfold attach_all
  dsimp only
  split
  · simp only [attach_kprobe, symsdb_sym2info_foreach]
    split <;> (try split) <;> exact sym2info_foreach_hooks k t c hc _ _
  · split
    · simp only [attach_kprobe_multi]
      split <;> exact attach_kprobe_multi_loop_hooks k t c hc _ _
    · split
      · simp only [attach_ftrace]
        split
        · split <;> rfl
        · split <;> exact attach_ftrace_loop_hooks k t c hc _ _
      · rfl

/-- The part of `tracer_run` before the loop calls no finalize hook. -/
theorem tracer_run_start_hooks (k : Kernel) (t : ipft_tracer) (s : State) (c : Call)
    (hc : c = Call.output_post_trace ∨ c = Call.script_exec_fini) :
    (tracer_run_start k t s).2.count_call c = s.count_call c := by
  have ha := attach_all_hooks k t s c hc
  unfold tracer_run_start
  dsimp only
  rcases hc with rfl | rfl <;>
    (repeat (first | split | simp [count_call_log, ha]))

/-- `trace_cb` calls no finalize hook. -/
theorem trace_cb_hooks (k : Kernel) (e : perf_sample_data) (s : State) (c : Call)
    (hc : c = Call.output_post_trace ∨ c = Call.script_exec_fini) :
    (trace_cb k e s).2.count_call c = s.count_call c := by
  unfold trace_cb
  dsimp only
  rcases hc with rfl | rfl <;>
    (repeat (first | split | simp [count_call_log]))

/-- Reading records calls no finalize hook. -/
theorem perf_event_read_simple_hooks (k : Kernel) (c : Call)
    (hc : c = Call.output_post_trace ∨ c = Call.script_exec_fini) :
    ∀ (l : List perf_sample_data) (s : State),
    (perf_event_read_simple k l s).2.count_call c = s.count_call c
  | [], s => rfl
  | e :: rest, s => by
    simp only [perf_event_read_simple]
    split
    · rw [perf_event_read_simple_hooks k c hc rest]
      exact trace_cb_hooks k e s c hc
    · exact trace_cb_hooks k e s c hc

/-- The poll loop calls no finalize hook. -/
theorem poll_loop_hooks (k : Kernel) (c : Call)
    (hc : c = Call.output_post_trace ∨ c = Call.script_exec_fini) :
    ∀ (polls : List poll_event) (e : Bool) (s : State),
    (poll_loop k e polls s).2.count_call c = s.count_call c
  | [], e, s => by
    simp only [poll_loop]; split <;> rfl
  | p :: rest, e, s => by
    have hp : (perf_buffer__poll k p s).2.count_call c = s.count_call c := by
      unfold perf_buffer__poll
      split
      · rfl
      · dsimp only
        split <;> exact perf_event_read_simple_hooks k c hc _ s
    simp only [poll_loop]
    split
    · rfl
    · split
      · split <;> exact hp
      · rw [poll_loop_hooks k c hc rest]
        exact hp

/-- C4, as stated, fails: the stop flag is observed and a script is
configured, but `output_post_trace` returns -1, so `tracer_run` returns -1
having called `output_post_trace` once and `script_exec_fini` not at all. -/
theorem tracer_run_post_trace_error_skips_script_fini :
    (demo_tracer_script "kprobe").script = true ∧
    (poll_loop kernel_post_trace_fails false [poll_sample, poll_interrupted]
        (tracer_run_start kernel_post_trace_fails (demo_tracer_script "kprobe")
          State.init).2).1 = loop_exit.stopped ∧
    (tracer_run kernel_post_trace_fails (demo_tracer_script "kprobe") false
        [poll_sample, poll_interrupted] State.init).map (fun r => r.1) = some (-1) ∧
    (tracer_run kernel_post_trace_fails (demo_tracer_script "kprobe") false
        [poll_sample, poll_interrupted] State.init).map
        (fun r => r.2.count_call Call.output_post_trace) = some 1 ∧
    (tracer_run kernel_post_trace_fails (demo_tracer_script "kprobe") false
        [poll_sample, poll_interrupted] State.init).map
        (fun r => r.2.count_call Call.script_exec_fini) = some 0 := by
  decide

/-- C4, amended: whenever `tracer_run`, started with nothing called, reaches
its poll loop and leaves it because the stop flag was observed, it returns,
and `output_post_trace` has been called exactly once, as the first call after
the loop.  If `output_post_trace` did not return -1 and a script is
configured, `script_exec_fini` has been called exactly once, right after it,
and the result is 0.  If no script is configured, or `output_post_trace`
returned -1, `script_exec_fini` has not been called; in the latter case the
result is -1. -/
theorem tracer_run_finalize_hooks (k : Kernel) (t : ipft_tracer) (early_signal : Bool)
    (polls : List poll_event)
    (hstart : (tracer_run_start k t State.init).1 = 0)
    (hstop : (poll_loop k early_signal polls (tracer_run_start k t State.init).2).1
      = loop_exit.stopped) :
    ∃ r, tracer_run k t early_signal polls State.init = some r ∧
      r.2.count_call Call.output_post_trace = 1 ∧
      (k.output_post_trace ≠ -1 → t.script = true →
        r.1 = 0 ∧ r.2.count_call Call.script_exec_fini = 1 ∧
        r.2.calls = (poll_loop k early_signal polls (tracer_run_start k t State.init).2).2.calls
          ++ [Call.output_post_trace, Call.script_exec_fini]) ∧
      (t.script = false →
        r.2.count_call Call.script_exec_fini = 0 ∧
        r.2.calls = (poll_loop k early_signal polls (tracer_run_start k t State.init).2).2.calls
          ++ [Call.output_post_trace]) ∧
      (k.output_post_trace = -1 →
        r.1 = -1 ∧ r.2.count_call Call.script_exec_fini = 0) := by
  have hloop : ∀ c, c = Call.output_post_trace ∨ c = Call.script_exec_fini →
      (poll_loop k early_signal polls (tracer_run_start k t State.init).2).2.count_call c = 0 := by
    intro c hc
    rw [poll_loop_hooks k c hc, tracer_run_start_hooks k t State.init c hc]
    rfl
  have hp := hloop Call.output_post_trace (Or.inl rfl)
  have hf := hloop Call.script_exec_fini (Or.inr rfl)
  refine ⟨tracer_run_finish k t
    (poll_loop k early_signal polls (tracer_run_start k t State.init).2).2, ?_, ?_, ?_, ?_, ?_⟩
  · unfold tracer_run
    simp only [hstart, bne_self_eq_false, Bool.false_eq_true, if_false]
    generalize poll_loop k early_signal polls (tracer_run_start k t State.init).2 = pl at hstop
    obtain ⟨e, s1⟩ := pl
    simp only at hstop
    subst hstop
    rfl
  · unfold tracer_run_finish
    dsimp only
    repeat (first | split | simp [count_call_log, hp])
  · intro hne hs
    have e : ∀ s1, tracer_run_finish k t s1
        = (0, (s1.log Call.output_post_trace).log Call.script_exec_fini) := by
      intro s1; simp [tracer_run_finish, hne, hs]
    rw [e]
    refine ⟨rfl, ?_, ?_⟩
    · simp [count_call_log, hf]
    · simp [State.log]
  · intro hs
    have e : ∀ s1, (tracer_run_finish k t s1).2 = s1.log Call.output_post_trace := by
      intro s1
      unfold tracer_run_finish
      dsimp only
      split <;> simp [hs]
    rw [e]
    refine ⟨?_, ?_⟩
    · simp [count_call_log, hf]
    · simp [State.log]
  · intro he
    simp [tracer_run_finish, he, count_call_log, hf]

/-- Witness for C4: a sample is polled, then the signal interrupts the next
poll; the script is configured and `output_post_trace` succeeds. -/
theorem tracer_run_finalize_hooks_witness :
    (tracer_run_start demo_kernel (demo_tracer_script "kprobe") State.init).1 = 0 ∧
    (poll_loop demo_kernel false [poll_sample, poll_interrupted]
      (tracer_run_start demo_kernel (demo_tracer_script "kprobe") State.init).2).1
      = loop_exit.stopped ∧
    ∃ r, tracer_run demo_kernel (demo_tracer_script "kprobe") false
        [poll_sample, poll_interrupted] State.init = some r ∧
      r.2.count_call Call.output_post_trace = 1 ∧
      r.1 = 0 ∧ r.2.count_call Call.script_exec_fini = 1 :=
  ⟨by decide, by decide,
    (tracer_run_finalize_hooks demo_kernel (demo_tracer_script "kprobe") false
      [poll_sample, poll_interrupted] (by decide) (by decide)).elim
      (fun r h => ⟨r, h.1, h.2.1, (h.2.2.1 (by decide) (by decide)).1,
        (h.2.2.1 (by decide) (by decide)).2.1⟩)⟩

/-! ## C5: batch counting of kprobe-multi -/

/-- The kprobe-multi loop returns 0 when the program of every listed position
is found and every allocation succeeds, whatever the bulk attaches answer. -/
theorem attach_kprobe_multi_loop_ok (k : Kernel) (t : ipft_tracer) :
    ∀ (ps : List Nat) (s : State),
    (∀ j ∈ ps, bpf_object__find_program_by_name t.bpf (main_name j) ≠ none ∧
      k.calloc (symsdb_get_pos2syms_total t.sdb j) = true) →
    (attach_kprobe_multi_loop k t ps s).1 = 0
  | [], _, _ => rfl
  | i :: rest, s, h => by
    have hi := h i (List.mem_cons_self _ _)
    have ih := fun s1 => attach_kprobe_multi_loop_ok k t rest s1
      (fun j hj => h j (List.mem_cons_of_mem _ hj))
    obtain ⟨prog, hprog⟩ := Option.ne_none_iff_exists'.mp hi.1
    have h0 : (attach_kprobe_multi_pos k t i s).1 = 0 := by
      unfold attach_kprobe_multi_pos
      simp only [hprog, hi.2, Bool.not_true, Bool.false_eq_true, if_false]
      split <;> rfl
    simp only [attach_kprobe_multi_loop, h0]
    exact ih _

/-- C5: at a position whose program is found and whose allocation succeeds,
with `n` symbols passing the filter, one bulk attach is issued for exactly
those symbols; if it fails, `failed` grows by `n` and `succeeded` is
unchanged; if it succeeds, `succeeded` grows by `n` and `failed` is
unchanged.  Either way the body does not return, the loop goes on with the
next position, and `attach_kprobe_multi` returns 0 whenever every position
has its program and its allocation, whatever the bulk attaches answer. -/
theorem kprobe_multi_batch_counted (k : Kernel) (t : ipft_tracer) (i : Nat)
    (prog : bpf_program) (s : State) (rest : List Nat)
    (hfind : bpf_object__find_program_by_name t.bpf (main_name i) = some prog)
    (hcalloc : k.calloc (symsdb_get_pos2syms_total t.sdb i) = true) :
    (attach_kprobe_multi_pos k t i s).1 = 0 ∧
    (attach_kprobe_multi_pos k t i s).2.calls
      = s.calls ++ [Call.attach_kprobe_multi prog.name ((symsdb_pos2syms t.sdb i).filter t.re)] ∧
    (k.attach_kprobe_multi prog.name ((symsdb_pos2syms t.sdb i).filter t.re) ≠ 0 →
      (attach_kprobe_multi_pos k t i s).2.attach_stat.failed
        = s.attach_stat.failed + ((symsdb_pos2syms t.sdb i).filter t.re).length ∧
      (attach_kprobe_multi_pos k t i s).2.attach_stat.succeeded = s.attach_stat.succeeded) ∧
    (k.attach_kprobe_multi prog.name ((symsdb_pos2syms t.sdb i).filter t.re) = 0 →
      (attach_kprobe_multi_pos k t i s).2.attach_stat.succeeded
        = s.attach_stat.succeeded + ((symsdb_pos2syms t.sdb i).filter t.re).length ∧
      (attach_kprobe_multi_pos k t i s).2.attach_stat.failed = s.attach_stat.failed) ∧
    attach_kprobe_multi_loop k t (i :: rest) s
      = attach_kprobe_multi_loop k t rest (attach_kprobe_multi_pos k t i s).2 ∧
    ((∀ j < k.MAX_SKB_POS, bpf_object__find_program_by_name t.bpf (main_name j) ≠ none ∧
        k.calloc (symsdb_get_pos2syms_total t.sdb j) = true) →
      ∀ s1, (attach_kprobe_multi k t s1).1 = 0) := by
  have h0 : (attach_kprobe_multi_pos k t i s).1 = 0 := by
    unfold attach_kprobe_multi_pos
    simp only [hfind, hcalloc, Bool.not_true, Bool.false_eq_true, if_false]
    split <;> rfl
  refine ⟨h0, ?_, ?_, ?_, ?_, ?_⟩
  · unfold attach_kprobe_multi_pos
    simp only [hfind, hcalloc, Bool.not_true, Bool.false_eq_true, if_false,
      kprobe_multi_collect_eq, List.nil_append]
    split <;> rfl
  · intro hne
    unfold attach_kprobe_multi_pos
    simp only [hfind, hcalloc, Bool.not_true, Bool.false_eq_true, if_false,
      kprobe_multi_collect_eq, List.nil_append, bne_iff_ne, ne_eq, hne, not_false_eq_true,
      if_true]
    exact ⟨rfl, rfl⟩
  · intro he
    unfold attach_kprobe_multi_pos
    simp only [hfind, hcalloc, Bool.not_true, Bool.false_eq_true, if_false,
      kprobe_multi_collect_eq, List.nil_append, bne_iff_ne, ne_eq, he, not_true_eq_false]
    exact ⟨rfl, rfl⟩
  · simp only [attach_kprobe_multi_loop, h0]
    rfl
  · intro hall s1
    exact attach_kprobe_multi_loop_ok k t _ s1
      (fun j hj => hall j (List.mem_range.mp hj))

/-- Witness for C5: position 1 of the demo database holds `x` (filtered) and
`b`; the bulk attach fails, so `failed` grows by one and `succeeded` by
none. -/
theorem kprobe_multi_batch_counted_witness :
    bpf_object__find_program_by_name (demo_tracer "kprobe-multi").bpf (main_name 1)
      = some ⟨"ipft_main1", true, none⟩ ∧
    kernel_attach_fails.calloc (symsdb_get_pos2syms_total (demo_tracer "kprobe-multi").sdb 1)
      = true ∧
    ((symsdb_pos2syms (demo_tracer "kprobe-multi").sdb 1).filter
      (demo_tracer "kprobe-multi").re).length = 1 ∧
    (attach_kprobe_multi_pos kernel_attach_fails (demo_tracer "kprobe-multi") 1
        State.init).2.attach_stat.failed
      = State.init.attach_stat.failed
        + ((symsdb_pos2syms (demo_tracer "kprobe-multi").sdb 1).filter
            (demo_tracer "kprobe-multi").re).length ∧
    (attach_kprobe_multi_pos kernel_attach_fails (demo_tracer "kprobe-multi") 1
        State.init).2.attach_stat.succeeded = State.init.attach_stat.succeeded :=
  ⟨by decide, by decide, by decide,
    (kprobe_multi_batch_counted kernel_attach_fails (demo_tracer "kprobe-multi") 1
      ⟨"ipft_main1", true, none⟩ State.init [] (by decide) (by decide)).2.2.1 (by decide)⟩

/-! ## C6: a refused kprobe ends the kprobe pass -/

/-- A walk over `pre ++ post` whose callbacks all return 0 on `pre` is the
walk over `post` from the state reached after `pre`. -/
theorem sym2info_foreach_list_append {σ : Type} (cb : String → ipft_syminfo → σ → Int × σ) :
    ∀ (pre post : List (String × ipft_syminfo)) (s : σ),
    (sym2info_foreach_list cb pre s).1 = 0 →
    sym2info_foreach_list cb (pre ++ post) s
      = sym2info_foreach_list cb post (sym2info_foreach_list cb pre s).2
  | [], _, _, _ => rfl
  | (sym, si) :: pre, post, s, h => by
    simp only [List.cons_append, sym2info_foreach_list] at h ⊢
    split
    · rename_i hc
      simp [hc] at h
    · rename_i hc
      simp only [hc, if_false] at h
      exact sym2info_foreach_list_append cb pre post _ h

/-- C6, as stated, fails: the kernel refuses the kprobe on `a` and would
accept the one on `b`, which passes the filter; the pass stops at `a`, the
only attach issued, with `failed = 1`, and `attach_all` returns -1. -/
theorem kprobe_refusal_ends_pass :
    (demo_tracer "kprobe").re "b" = true ∧
    kernel_rejects_a.attach_kprobe "ipft_main1" "b" = true ∧
    (attach_kprobe kernel_rejects_a (demo_tracer "kprobe") State.init).1 = -1 ∧
    (attach_all kernel_rejects_a (demo_tracer "kprobe") State.init).1 = -1 ∧
    (attach_all kernel_rejects_a (demo_tracer "kprobe") State.init).2.attach_stat
      = ⟨3, 0, 1, 0⟩ ∧
    (attach_all kernel_rejects_a (demo_tracer "kprobe") State.init).2.calls
      = [Call.attach_kprobe "ipft_main0" "a"] := by
  decide

/-- C6, amended: in the kprobe pass, when the symbols before `sym` were all
handled with result 0 and the kernel refuses the kprobe on the
filter-passing symbol `sym`, then `failed` is incremented by one for `sym`,
`attach_cb` returns -1, the walk stops there (the symbols after `sym` are
neither attempted nor counted: the final state is the one right after
`sym`), and `attach_kprobe` and `attach_all` return -1. -/
theorem kprobe_refusal_is_fatal (k : Kernel) (t : ipft_tracer) (s : State)
    (pre post : List (String × ipft_syminfo)) (sym : String) (si : ipft_syminfo)
    (prog : bpf_program)
    (hbackend : t.opt.backend = "kprobe")
    (hsyms : t.sdb.syms = pre ++ (sym, si) :: post)
    (hpre : (sym2info_foreach_list (attach_cb k t) pre
      { s with attach_stat :=
          { s.attach_stat with total := symsdb_get_sym2info_total t.sdb } }).1 = 0)
    (hre : t.re sym = true)
    (hfind : bpf_object__find_program_by_name t.bpf (main_name si.skb_pos) = some prog)
    (hrefuse : k.attach_kprobe prog.name sym = false) :
    (∀ s1, attach_cb k t sym si s1
      = (-1, (s1.log (Call.attach_kprobe prog.name sym)).add_failed 1)) ∧
    (∀ s1, (attach_cb k t sym si s1).2.attach_stat.failed = s1.attach_stat.failed + 1) ∧
    attach_all k t s
      = (-1, ((sym2info_foreach_list (attach_cb k t) pre
          { s with attach_stat :=
              { s.attach_stat with total := symsdb_get_sym2info_total t.sdb } }).2.log
            (Call.attach_kprobe prog.name sym)).add_failed 1) ∧
    (attach_kprobe k t
      { s with attach_stat :=
          { s.attach_stat with total := symsdb_get_sym2info_total t.sdb } }).1 = -1 ∧
    (attach_all k t s).1 = -1 := by
  have hcb : ∀ s1, attach_cb k t sym si s1
      = (-1, (s1.log (Call.attach_kprobe prog.name sym)).add_failed 1) := by
    intro s1; simp [attach_cb, hre, hfind, hrefuse]
  have hwalk : ∀ s0, (sym2info_foreach_list (attach_cb k t) pre s0).1 = 0 →
      sym2info_foreach_list (attach_cb k t) t.sdb.syms s0
        = (-1, ((sym2info_foreach_list (attach_cb k t) pre s0).2.log
            (Call.attach_kprobe prog.name sym)).add_failed 1) := by
    intro s0 h0
    rw [hsyms, sym2info_foreach_list_append _ _ _ _ h0]
    simp [sym2info_foreach_list, hcb]
  have hall : attach_all k t s
      = (-1, ((sym2info_foreach_list (attach_cb k t) pre
          { s with attach_stat :=
              { s.attach_stat with total := symsdb_get_sym2info_total t.sdb } }).2.log
            (Call.attach_kprobe prog.name sym)).add_failed 1) := by
    simp [attach_all, hbackend, attach_kprobe, symsdb_sym2info_foreach, hwalk _ hpre]
  refine ⟨hcb, ?_, hall, ?_, ?_⟩
  · intro s1; rw [hcb]; rfl
  · simp [attach_kprobe, symsdb_sym2info_foreach, hwalk _ hpre]
  · rw [hall]

/-- Witness for C6: `x` is filtered, then the kprobe on `a` is refused, and
`b` is never reached. -/
theorem kprobe_refusal_is_fatal_witness :
    ({ demo_tracer "kprobe" with sdb := ⟨[("x", ⟨1, 1, 2⟩), ("a", ⟨0, 1, 2⟩), ("b", ⟨1, 1, 2⟩)]⟩ }
      : ipft_tracer).re "a" = true ∧
    kernel_rejects_a.attach_kprobe "ipft_main0" "a" = false ∧
    (attach_all kernel_rejects_a
      { demo_tracer "kprobe" with sdb := ⟨[("x", ⟨1, 1, 2⟩), ("a", ⟨0, 1, 2⟩), ("b", ⟨1, 1, 2⟩)]⟩ }
      State.init).1 = -1 :=
  ⟨by decide, by decide,
    (kprobe_refusal_is_fatal kernel_rejects_a
      { demo_tracer "kprobe" with sdb := ⟨[("x", ⟨1, 1, 2⟩), ("a", ⟨0, 1, 2⟩), ("b", ⟨1, 1, 2⟩)]⟩ }
      State.init [("x", ⟨1, 1, 2⟩)] [("b", ⟨1, 1, 2⟩)] "a" ⟨0, 1, 2⟩ ⟨"ipft_main0", true, none⟩
      (by decide) (by decide) (by decide) (by decide) (by decide) (by decide)).2.2.2.2⟩

/-! ## C7: a symbol of the ftrace pass succeeds only after all four steps -/

/-- In the ftrace pass a filter-passing symbol found in the database is
counted as succeeded as soon as both raw tracepoint opens answer a
non-negative descriptor; the two values returned by `bpf_prog_load` are
passed on to the opens and otherwise not examined. -/
theorem attach_ftrace_sym_succeeds_of_opens (k : Kernel) (t : ipft_tracer)
    (ep xp : bpf_program) (sym : String) (s : State)
    (hre : t.re sym = true) (hfound : (symsdb_get_sym2info t.sdb sym).1 = 0)
    (hentry : 0 ≤ k.bpf_raw_tracepoint_open
      (k.bpf_prog_load ep.name bpf_attach_type.BPF_TRACE_FENTRY (symsdb_get_sym2info t.sdb sym).2))
    (hexit : 0 ≤ k.bpf_raw_tracepoint_open
      (k.bpf_prog_load xp.name bpf_attach_type.BPF_TRACE_FEXIT (symsdb_get_sym2info t.sdb sym).2)) :
    (attach_ftrace_sym k t ep xp sym s).1 = 0 ∧
    (attach_ftrace_sym k t ep xp sym s).2.attach_stat.succeeded = s.attach_stat.succeeded + 1 := by
  unfold attach_ftrace_sym
  simp only [hre, hfound, Bool.not_true, Bool.false_eq_true, if_false, bne_self_eq_false,
    Int.not_lt.mpr hentry, Int.not_lt.mpr hexit]
  exact ⟨rfl, rfl⟩

/-- When the kernel refuses to open a raw tracepoint on a negative
descriptor, a symbol counted as succeeded by the ftrace pass had all four
steps succeed. -/
theorem attach_ftrace_sym_succeeded_of_strict_kernel (k : Kernel) (t : ipft_tracer)
    (ep xp : bpf_program) (sym : String) (s : State)
    (hstrict : ∀ fd : Int, fd < 0 → k.bpf_raw_tracepoint_open fd < 0)
    (hre : t.re sym = true)
    (hret : (attach_ftrace_sym k t ep xp sym s).1 = 0) :
    0 ≤ k.bpf_prog_load ep.name bpf_attach_type.BPF_TRACE_FENTRY (symsdb_get_sym2info t.sdb sym).2 ∧
    0 ≤ k.bpf_prog_load xp.name bpf_attach_type.BPF_TRACE_FEXIT (symsdb_get_sym2info t.sdb sym).2 ∧
    0 ≤ k.bpf_raw_tracepoint_open
      (k.bpf_prog_load ep.name bpf_attach_type.BPF_TRACE_FENTRY (symsdb_get_sym2info t.sdb sym).2) ∧
    0 ≤ k.bpf_raw_tracepoint_open
      (k.bpf_prog_load xp.name bpf_attach_type.BPF_TRACE_FEXIT (symsdb_get_sym2info t.sdb sym).2) := by
  unfold attach_ftrace_sym at hret
  simp only [hre, Bool.not_true, Bool.false_eq_true, if_false] at hret
  split at hret
  · simp at hret
  · split at hret
    · simp at hret
    · split at hret
      · simp at hret
      · split at hret
        · simp at hret
        · rename_i h1 h2
          have h1 := Int.not_lt.mp h1
          have h2 := Int.not_lt.mp h2
          refine ⟨?_, ?_, h1, h2⟩
          · by_contra hneg
            exact absurd (hstrict _ (Int.not_le.mp hneg)) (Int.not_lt.mpr h1)
          · by_contra hneg
            exact absurd (hstrict _ (Int.not_le.mp hneg)) (Int.not_lt.mpr h2)

/-- A filter-passing symbol of the ftrace pass either is counted as
succeeded, the body returning 0, or leaves the counters as they are, the body
returning -1. -/
theorem attach_ftrace_sym_cases (k : Kernel) (t : ipft_tracer) (ep xp : bpf_program)
    (sym : String) (s : State) (hre : t.re sym = true) :
    ((attach_ftrace_sym k t ep xp sym s).1 = 0 ∧
      (attach_ftrace_sym k t ep xp sym s).2.attach_stat = (s.add_succeeded 1).attach_stat) ∨
    ((attach_ftrace_sym k t ep xp sym s).1 = -1 ∧
      (attach_ftrace_sym k t ep xp sym s).2.attach_stat = s.attach_stat) := by
  unfold attach_ftrace_sym
  simp only [hre, Bool.not_true, Bool.false_eq_true, if_false]
  split
  · right; simp
  · split
    · right; simp
    · split
      · right; simp
      · split
        · right; simp
        · left; simp [State.add_succeeded, State.log]

/-- C7: with a kernel that refuses to open a raw tracepoint on a negative
descriptor, a filter-passing symbol of the ftrace pass is counted as
succeeded only if all four steps succeeded for it: loading the entry program,
loading the exit program, opening the entry raw tracepoint and opening the
exit raw tracepoint.  In particular, if either `bpf_prog_load` returns a
negative value, the body returns -1 and no counter changes.  When the symbol
is found in the database and both opens succeed, it is counted. -/
theorem ftrace_succeeded_needs_all_four_steps (k : Kernel) (t : ipft_tracer)
    (ep xp : bpf_program) (sym : String) (s : State)
    (hstrict : ∀ fd : Int, fd < 0 → k.bpf_raw_tracepoint_open fd < 0)
    (hre : t.re sym = true) :
    ((attach_ftrace_sym k t ep xp sym s).2.attach_stat.succeeded ≠ s.attach_stat.succeeded →
      0 ≤ k.bpf_prog_load ep.name bpf_attach_type.BPF_TRACE_FENTRY
        (symsdb_get_sym2info t.sdb sym).2 ∧
      0 ≤ k.bpf_prog_load xp.name bpf_attach_type.BPF_TRACE_FEXIT
        (symsdb_get_sym2info t.sdb sym).2 ∧
      0 ≤ k.bpf_raw_tracepoint_open
        (k.bpf_prog_load ep.name bpf_attach_type.BPF_TRACE_FENTRY
          (symsdb_get_sym2info t.sdb sym).2) ∧
      0 ≤ k.bpf_raw_tracepoint_open
        (k.bpf_prog_load xp.name bpf_attach_type.BPF_TRACE_FEXIT
          (symsdb_get_sym2info t.sdb sym).2)) ∧
    ((k.bpf_prog_load ep.name bpf_attach_type.BPF_TRACE_FENTRY
          (symsdb_get_sym2info t.sdb sym).2 < 0 ∨
        k.bpf_prog_load xp.name bpf_attach_type.BPF_TRACE_FEXIT
          (symsdb_get_sym2info t.sdb sym).2 < 0) →
      (attach_ftrace_sym k t ep xp sym s).1 = -1 ∧
      (attach_ftrace_sym k t ep xp sym s).2.attach_stat = s.attach_stat) ∧
    ((symsdb_get_sym2info t.sdb sym).1 = 0 →
      0 ≤ k.bpf_raw_tracepoint_open
        (k.bpf_prog_load ep.name bpf_attach_type.BPF_TRACE_FENTRY
          (symsdb_get_sym2info t.sdb sym).2) →
      0 ≤ k.bpf_raw_tracepoint_open
        (k.bpf_prog_load xp.name bpf_attach_type.BPF_TRACE_FEXIT
          (symsdb_get_sym2info t.sdb sym).2) →
      (attach_ftrace_sym k t ep xp sym s).1 = 0 ∧
      (attach_ftrace_sym k t ep xp sym s).2.attach_stat.succeeded
        = s.attach_stat.succeeded + 1) := by
  have hcases := attach_ftrace_sym_cases k t ep xp sym s hre
  refine ⟨?_, ?_, ?_⟩
  · intro hchg
    rcases hcases with h | h
    · exact attach_ftrace_sym_succeeded_of_strict_kernel k t ep xp sym s hstrict hre h.1
    · exact absurd (by rw [h.2]) hchg
  · intro hload
    rcases hcases with h | h
    · have h4 := attach_ftrace_sym_succeeded_of_strict_kernel k t ep xp sym s hstrict hre h.1
      rcases hload with hl | hl
      · exact absurd h4.1 (Int.not_le.mpr hl)
      · exact absurd h4.2.1 (Int.not_le.mpr hl)
    · exact h
  · intro hfound hentry hexit
    exact attach_ftrace_sym_succeeds_of_opens k t ep xp sym s hre hfound hentry hexit

/-- Witness for C7: the kernel refuses negative descriptors and the load of
the entry program for `a` fails with -1; the body returns -1 and the counters
stay as they were.  With the same kernel and both loads succeeding, `a` is
counted as succeeded. -/
theorem ftrace_succeeded_needs_all_four_steps_witness :
    (demo_tracer "ftrace").re "a" = true ∧
    kernel_strict_load_fails.bpf_prog_load "ipft_main0" bpf_attach_type.BPF_TRACE_FENTRY
      (symsdb_get_sym2info (demo_tracer "ftrace").sdb "a").2 = -1 ∧
    (attach_ftrace_sym kernel_strict_load_fails (demo_tracer "ftrace")
      ⟨"ipft_main0", true, none⟩ ⟨"ipft_main_return0", true, none⟩ "a" State.init).1 = -1 ∧
    (attach_ftrace_sym kernel_strict_load_fails (demo_tracer "ftrace")
      ⟨"ipft_main0", true, none⟩ ⟨"ipft_main_return0", true, none⟩ "a" State.init).2.attach_stat
      = State.init.attach_stat ∧
    (attach_ftrace_sym kernel_strict (demo_tracer "ftrace")
      ⟨"ipft_main0", true, none⟩ ⟨"ipft_main_return0", true, none⟩ "a"
      State.init).2.attach_stat.succeeded = State.init.attach_stat.succeeded + 1 :=
  ⟨by decide, by decide,
    ((ftrace_succeeded_needs_all_four_steps kernel_strict_load_fails (demo_tracer "ftrace")
      ⟨"ipft_main0", true, none⟩ ⟨"ipft_main_return0", true, none⟩ "a" State.init
      (fun fd h => by simp [kernel_strict_load_fails, kernel_strict, h]) (by decide)).2.1
      (Or.inl (by decide))).1,
    ((ftrace_succeeded_needs_all_four_steps kernel_strict_load_fails (demo_tracer "ftrace")
      ⟨"ipft_main0", true, none⟩ ⟨"ipft_main_return0", true, none⟩ "a" State.init
      (fun fd h => by simp [kernel_strict_load_fails, kernel_strict, h]) (by decide)).2.1
      (Or.inl (by decide))).2,
    ((ftrace_succeeded_needs_all_four_steps kernel_strict (demo_tracer "ftrace")
      ⟨"ipft_main0", true, none⟩ ⟨"ipft_main_return0", true, none⟩ "a" State.init
      (fun fd h => by simp [kernel_strict, h]) (by decide)).2.2
      (by decide) (by decide) (by decide)).2⟩

/-! ## C8: temporary files of the image builder -/

/-- Unlinking a path that is not present changes nothing. -/
theorem unlink_of_not_mem (fs : Fs) (name : String) (h : name ∉ fs) : unlink fs name = fs := by
  unfold unlink
  rw [List.filter_eq_self]
  intro a ha
  have : a ≠ name := fun e => h (e ▸ ha)
  simpa using this

/-- Unlinking the path at the head of the list. -/
theorem unlink_cons_self (fs : Fs) (name : String) :
    unlink (name :: fs) name = unlink fs name := by
  simp [unlink, List.filter_cons]

/-- Unlinking a path other than the head of the list. -/
theorem unlink_cons_of_ne (fs : Fs) (name other : String) (h : other ≠ name) :
    unlink (other :: fs) name = other :: unlink fs name := by
  simp [unlink, List.filter_cons, h]

/-- The file made by `create_tmpfile_from_image` is the only change to the
file system, and it is there only when the function returns 0. -/
theorem create_tmpfile_from_image_fs (e : tmpfile_env) (fs : Fs)
    (hfresh : ∀ n, e.mkstemp = some n → n ∉ fs) :
    create_tmpfile_from_image e fs = (none, fs) ∨
    (∃ n, e.mkstemp = some n ∧ create_tmpfile_from_image e fs = (some n, n :: fs)) := by
  unfold create_tmpfile_from_image
  split
  · left; rfl
  · split
    · left; rfl
    · rename_i name hname
      dsimp only
      split
      · left
        rw [unlink_cons_self, unlink_of_not_mem fs name (hfresh name hname)]
      · right
        exact ⟨name, hname, rfl⟩

/-- After `do_link` neither image file remains: the file system is as
before, or holds in addition the output file of the linker. -/
theorem do_link_fs (e : link_env) (fs : Fs)
    (ht : ∀ n, e.target.mkstemp = some n → n ∉ fs ∧ n ≠ e.tmpnam)
    (hm : ∀ n, e.module.mkstemp = some n → n ∉ fs ∧ n ≠ e.tmpnam ∧ e.target.mkstemp ≠ some n) :
    (do_link e fs).2.2 = fs ∨ (do_link e fs).2.2 = e.tmpnam :: fs := by
  unfold do_link
  rcases create_tmpfile_from_image_fs e.target fs (fun n hn => (ht n hn).1) with h1 | h1
  · rw [h1]
    left; rfl
  · obtain ⟨n1, hn1, h1⟩ := h1
    rw [h1]
    have hn1fs := (ht n1 hn1).1
    have hn1tmp := (ht n1 hn1).2
    have hfresh2 : ∀ n, e.module.mkstemp = some n → n ∉ n1 :: fs := by
      intro n hn hmem
      rcases List.mem_cons.mp hmem with h | h
      · exact (hm n hn).2.2 (h ▸ hn1)
      · exact (hm n hn).1 h
    rcases create_tmpfile_from_image_fs e.module (n1 :: fs) hfresh2 with h2 | h2
    · simp only [h2]
      left
      rw [unlink_cons_self, unlink_of_not_mem fs n1 hn1fs]
    · obtain ⟨n2, hn2, h2⟩ := h2
      simp only [h2]
      have hn2fs := (hm n2 hn2).1
      have hn2tmp := (hm n2 hn2).2.1
      have hn12 : n1 ≠ n2 := fun h => (hm n2 hn2).2.2 (h ▸ hn1)
      have hclean : unlink (unlink (n2 :: n1 :: fs) n2) n1 = fs := by
        rw [unlink_cons_self, unlink_cons_of_ne _ _ _ hn12, unlink_of_not_mem fs n2 hn2fs,
          unlink_cons_self, unlink_of_not_mem fs n1 hn1fs]
      have hclean3 : unlink (unlink (e.tmpnam :: n2 :: n1 :: fs) n2) n1 = e.tmpnam :: fs := by
        rw [unlink_cons_of_ne _ _ _ (Ne.symm hn2tmp), unlink_cons_of_ne _ _ _ (Ne.symm hn1tmp),
          hclean]
      split
      · left; exact hclean
      · right
        split
        · exact hclean3
        · split
          · exact hclean3
          · split <;> exact hclean3

/-- When `bpf_create` returns 0, no temporary file of the builder remains;
in every case the two image files are gone, and at most the output file of
the linker is left. -/
theorem bpf_create_fs (k : Kernel) (e : build_env) (t : ipft_tracer) (backend : String)
    (fs : Fs) (htmp : e.link.tmpnam ∉ fs)
    (ht : ∀ n, e.link.target.mkstemp = some n → n ∉ fs ∧ n ≠ e.link.tmpnam)
    (hm : ∀ n, e.link.module.mkstemp = some n →
      n ∉ fs ∧ n ≠ e.link.tmpnam ∧ e.link.target.mkstemp ≠ some n) :
    ((bpf_create k e t backend fs).2.2 = fs ∨
      (bpf_create k e t backend fs).2.2 = e.link.tmpnam :: fs) ∧
    ((bpf_create k e t backend fs).1 = 0 → (bpf_create k e t backend fs).2.2 = fs) := by
  have hl := do_link_fs e.link fs ht hm
  have hname : ∀ name, (do_link e.link fs).2.1 = some name → name = e.link.tmpnam := by
    intro name
    unfold do_link
    repeat (first | split | simp)
    intro h; exact h.symm
  have hu : ∀ name, (do_link e.link fs).2.1 = some name →
      unlink (do_link e.link fs).2.2 name = fs := by
    intro name hn
    rw [hname name hn]
    rcases hl with h | h
    · rw [h, unlink_of_not_mem fs _ htmp]
    · rw [h, unlink_cons_self, unlink_of_not_mem fs _ htmp]
  unfold bpf_create
  split
  · exact ⟨Or.inl rfl, fun _ => rfl⟩
  · split
    · exact ⟨Or.inl rfl, fun _ => rfl⟩
    · dsimp only
      split
      · exact ⟨hl, fun h => by simp at h⟩
      · split
        · exact ⟨hl, fun h => by simp at h⟩
        · rename_i name hn
          split
          · exact ⟨hl, fun h => by simp at h⟩
          · rw [hu name hn]
            refine ⟨Or.inl ?_, fun _ => ?_⟩ <;> (repeat (first | split | rfl))

/-- C8 fails on the code: starting from an empty temporary directory, when
only `bpf_object__open` fails, and likewise when only the first
`bpf_linker__add_file` fails, `bpf_create` returns -1 and the output file of
the linker is still there. -/
theorem bpf_create_leaves_linker_output :
    bpf_create demo_kernel build_env_open_fails (demo_tracer "kprobe") "kprobe" []
      = (-1, none, ["/tmp/fileCCCCCC"]) ∧
    bpf_create demo_kernel build_env_add_file_fails (demo_tracer "kprobe") "kprobe" []
      = (-1, none, ["/tmp/fileCCCCCC"]) ∧
    (bpf_create demo_kernel demo_build_env (demo_tracer "kprobe") "kprobe" []).1 = 0 ∧
    (bpf_create demo_kernel demo_build_env (demo_tracer "kprobe") "kprobe" []).2.2 = [] := by
  decide

/-! ## C9: the three backend names -/

/-- C9: `get_target_image` returns the kprobe, kprobe-multi and ftrace
images with their lengths for the names `kprobe`, `kprobe-multi` and
`ftrace`, and succeeds for no other name; for every other name `attach_all`
returns -1 having made no call and with `succeeded`, `failed` and `filtered`
unchanged. -/
theorem backend_selection_closed (imgs : images) (backend : String) (k : Kernel)
    (t : ipft_tracer) (s : State) :
    get_target_image imgs "kprobe" = some (imgs.ipft_kprobe_bpf_o, imgs.ipft_kprobe_bpf_o_len) ∧
    get_target_image imgs "kprobe-multi"
      = some (imgs.ipft_kprobe_multi_bpf_o, imgs.ipft_kprobe_multi_bpf_o_len) ∧
    get_target_image imgs "ftrace" = some (imgs.ipft_ftrace_bpf_o, imgs.ipft_ftrace_bpf_o_len) ∧
    ((get_target_image imgs backend).isSome = true ↔
      (backend = "kprobe" ∨ backend = "kprobe-multi" ∨ backend = "ftrace")) ∧
    (¬ (backend = "kprobe" ∨ backend = "kprobe-multi" ∨ backend = "ftrace") →
      get_target_image imgs backend = none) ∧
    (¬ (t.opt.backend = "kprobe" ∨ t.opt.backend = "kprobe-multi" ∨ t.opt.backend = "ftrace") →
      (attach_all k t s).1 = -1 ∧
      (attach_all k t s).2.calls = s.calls ∧
      (attach_all k t s).2.attach_stat.succeeded = s.attach_stat.succeeded ∧
      (attach_all k t s).2.attach_stat.failed = s.attach_stat.failed ∧
      (attach_all k t s).2.attach_stat.filtered = s.attach_stat.filtered) := by
  refine ⟨rfl, rfl, rfl, ?_, ?_, ?_⟩
  · unfold get_target_image
    constructor
    · intro h
      by_cases h1 : backend = "kprobe"
      · exact Or.inl h1
      · by_cases h2 : backend = "kprobe-multi"
        · exact Or.inr (Or.inl h2)
        · by_cases h3 : backend = "ftrace"
          · exact Or.inr (Or.inr h3)
          · simp [h1, h2, h3] at h
    · rintro (h | h | h) <;> subst h <;> rfl
  · intro h
    simp only [not_or] at h
    simp [get_target_image, h.1, h.2.1, h.2.2]
  · intro h
    simp only [not_or] at h
    simp [attach_all, h.1, h.2.1, h.2.2]

/-- Witness for C9: the name `fentry` is not a backend. -/
theorem backend_selection_closed_witness :
    get_target_image demo_images "fentry" = none ∧
    (attach_all demo_kernel (demo_tracer "fentry") State.init).1 = -1 ∧
    (attach_all demo_kernel (demo_tracer "fentry") State.init).2.calls = State.init.calls :=
  ⟨(backend_selection_closed demo_images "fentry" demo_kernel (demo_tracer "fentry")
      State.init).2.2.2.2.1 (by decide),
   ((backend_selection_closed demo_images "fentry" demo_kernel (demo_tracer "fentry")
      State.init).2.2.2.2.2 (by decide)).1,
   ((backend_selection_closed demo_images "fentry" demo_kernel (demo_tracer "fentry")
      State.init).2.2.2.2.2 (by decide)).2.1⟩

/-! ## C10: the empty database -/

/-- Adding zero to a counter leaves the counters as they are. -/
theorem add_zero_attach_stat (s : State) :
    (s.add_failed 0).attach_stat = s.attach_stat ∧
    (s.add_succeeded 0).attach_stat = s.attach_stat := by
  exact ⟨rfl, rfl⟩

/-- On an empty database the kprobe-multi loop returns 0 with the counters
unchanged, when each listed position has its program and the empty
allocation succeeds. -/
theorem attach_kprobe_multi_loop_empty (k : Kernel) (t : ipft_tracer)
    (hempty : t.sdb.syms = []) (hcalloc : k.calloc 0 = true) :
    ∀ (ps : List Nat) (s : State),
    (∀ i ∈ ps, bpf_object__find_program_by_name t.bpf (main_name i) ≠ none) →
    (attach_kprobe_multi_loop k t ps s).1 = 0 ∧
    (attach_kprobe_multi_loop k t ps s).2.attach_stat = s.attach_stat
  | [], _, _ => ⟨rfl, rfl⟩
  | i :: rest, s, h => by
    obtain ⟨prog, hprog⟩ := Option.ne_none_iff_exists'.mp (h i (List.mem_cons_self _ _))
    have hsyms : symsdb_pos2syms t.sdb i = [] := by simp [symsdb_pos2syms, hempty]
    have hpos : (attach_kprobe_multi_pos k t i s).1 = 0 ∧
        (attach_kprobe_multi_pos k t i s).2.attach_stat = s.attach_stat := by
      unfold attach_kprobe_multi_pos
      simp only [hprog, symsdb_get_pos2syms_total, hsyms, List.length_nil, hcalloc,
        Bool.not_true, Bool.false_eq_true, if_false, kprobe_multi_collect]
      split <;> exact ⟨rfl, rfl⟩
    have ih := attach_kprobe_multi_loop_empty k t hempty hcalloc rest
      (attach_kprobe_multi_pos k t i s).2 (fun j hj => h j (List.mem_cons_of_mem _ hj))
    simp only [attach_kprobe_multi_loop, hpos.1]
    exact ⟨ih.1, ih.2.trans hpos.2⟩

/-- On an empty database the ftrace loop returns 0 with the state
unchanged, when each listed position has its two programs. -/
theorem attach_ftrace_loop_empty (k : Kernel) (t : ipft_tracer) (hempty : t.sdb.syms = []) :
    ∀ (ps : List Nat) (s : State),
    (∀ i ∈ ps, bpf_object__find_program_by_name t.bpf (main_name i) ≠ none ∧
      bpf_object__find_program_by_name t.bpf (main_return_name i) ≠ none) →
    attach_ftrace_loop k t ps s = (0, s)
  | [], _, _ => rfl
  | i :: rest, s, h => by
    obtain ⟨ep, hep⟩ := Option.ne_none_iff_exists'.mp (h i (List.mem_cons_self _ _)).1
    obtain ⟨xp, hxp⟩ := Option.ne_none_iff_exists'.mp (h i (List.mem_cons_self _ _)).2
    have hsyms : symsdb_pos2syms t.sdb i = [] := by simp [symsdb_pos2syms, hempty]
    have hpos : attach_ftrace_pos k t i s = (0, s) := by
      simp [attach_ftrace_pos, hep, hxp, hsyms, attach_ftrace_syms]
    simp only [attach_ftrace_loop, hpos]
    exact attach_ftrace_loop_empty k t hempty rest s (fun j hj => h j (List.mem_cons_of_mem _ hj))

/-- On an empty database `attach_all` returns 0 and leaves the counters at
their values, with `total` set to 0. -/
theorem attach_all_empty (k : Kernel) (t : ipft_tracer) (s : State)
    (hempty : t.sdb.syms = [])
    (hbackend : t.opt.backend = "kprobe" ∨ t.opt.backend = "kprobe-multi" ∨
      t.opt.backend = "ftrace")
    (hmulti : t.opt.backend = "kprobe-multi" → k.calloc 0 = true ∧
      ∀ i < k.MAX_SKB_POS, bpf_object__find_program_by_name t.bpf (main_name i) ≠ none)
    (hftrace : t.opt.backend = "ftrace" → 0 ≤ k.btf_fd ∧
      ∀ i < k.MAX_SKB_POS, bpf_object__find_program_by_name t.bpf (main_name i) ≠ none ∧
        bpf_object__find_program_by_name t.bpf (main_return_name i) ≠ none) :
    (attach_all k t s).1 = 0 ∧
    (attach_all k t s).2.attach_stat = { s.attach_stat with total := 0 } := by
  have hT : symsdb_get_sym2info_total t.sdb = 0 := by simp [symsdb_get_sym2info_total, hempty]
  rcases hbackend with hb | hb | hb
  · simp [attach_all, hb, attach_kprobe, symsdb_sym2info_foreach, hempty,
      sym2info_foreach_list, symsdb_get_sym2info_total]
  · obtain ⟨hc, hp⟩ := hmulti hb
    have h := attach_kprobe_multi_loop_empty k t hempty hc (List.range k.MAX_SKB_POS)
      { s with attach_stat := { s.attach_stat with total := symsdb_get_sym2info_total t.sdb } }
      (fun i hi => hp i (List.mem_range.mp hi))
    simp only [hT] at h
    simp [attach_all, hb, attach_kprobe_multi, hT, h.1, h.2]
  · obtain ⟨hbtf, hp⟩ := hftrace hb
    have h := attach_ftrace_loop_empty k t hempty (List.range k.MAX_SKB_POS)
      { s with attach_stat := { s.attach_stat with total := symsdb_get_sym2info_total t.sdb } }
      (fun i hi => hp i (List.mem_range.mp hi))
    simp only [hT] at h
    simp [attach_all, hb, attach_ftrace, Int.not_lt.mpr hbtf, hT, h]

/-- C10: for each of the three backends and every filter, on a database with
no symbols, in an environment where the loaded object holds the templates
the backend looks up, the empty allocation succeeds and the object has a BTF
descriptor, `attach_all` started from the zeroed counters returns 0 with
`total = succeeded = failed = filtered = 0`, and running it again from the
state it left returns 0 with the same counters. -/
theorem attach_all_empty_database (k : Kernel) (t : ipft_tracer)
    (hempty : t.sdb.syms = [])
    (hbackend : t.opt.backend = "kprobe" ∨ t.opt.backend = "kprobe-multi" ∨
      t.opt.backend = "ftrace")
    (hmulti : t.opt.backend = "kprobe-multi" → k.calloc 0 = true ∧
      ∀ i < k.MAX_SKB_POS, bpf_object__find_program_by_name t.bpf (main_name i) ≠ none)
    (hftrace : t.opt.backend = "ftrace" → 0 ≤ k.btf_fd ∧
      ∀ i < k.MAX_SKB_POS, bpf_object__find_program_by_name t.bpf (main_name i) ≠ none ∧
        bpf_object__find_program_by_name t.bpf (main_return_name i) ≠ none) :
    (attach_all k t State.init).1 = 0 ∧
    (attach_all k t State.init).2.attach_stat = ⟨0, 0, 0, 0⟩ ∧
    (attach_all k t (attach_all k t State.init).2).1 = 0 ∧
    (attach_all k t (attach_all k t State.init).2).2.attach_stat = ⟨0, 0, 0, 0⟩ := by
  have h1 := attach_all_empty k t State.init hempty hbackend hmulti hftrace
  have h2 := attach_all_empty k t (attach_all k t State.init).2 hempty hbackend hmulti hftrace
  refine ⟨h1.1, ?_, h2.1, ?_⟩
  · rw [h1.2]; rfl
  · rw [h2.2, h1.2]; rfl

/-- Witness for C10: the kprobe-multi backend on the empty database. -/
theorem attach_all_empty_database_witness :
    (empty_tracer "kprobe-multi").sdb.syms = [] ∧
    (attach_all demo_kernel (empty_tracer "kprobe-multi") State.init).1 = 0 ∧
    (attach_all demo_kernel (empty_tracer "kprobe-multi") State.init).2.attach_stat
      = ⟨0, 0, 0, 0⟩ ∧
    (attach_all demo_kernel (empty_tracer "kprobe-multi")
      (attach_all demo_kernel (empty_tracer "kprobe-multi") State.init).2).1 = 0 ∧
    (attach_all demo_kernel (empty_tracer "kprobe-multi")
      (attach_all demo_kernel (empty_tracer "kprobe-multi") State.init).2).2.attach_stat
      = ⟨0, 0, 0, 0⟩ :=
  ⟨rfl, attach_all_empty_database demo_kernel (empty_tracer "kprobe-multi") rfl
    (by decide) (fun _ => ⟨rfl, by decide⟩) (fun h => absurd h (by decide))⟩

/-! ## C11: a negative poll result, with and without the stop flag -/

/-- One call of `perf_buffer__poll` calls no finalize hook. -/
theorem perf_buffer__poll_hooks (k : Kernel) (p : poll_event) (s : State) (c : Call)
    (hc : c = Call.output_post_trace ∨ c = Call.script_exec_fini) :
    (perf_buffer__poll k p s).2.count_call c = s.count_call c := by
  unfold perf_buffer__poll
  split
  · rfl
  · dsimp only
    split <;> exact perf_event_read_simple_hooks k c hc _ s

/-- A loop that is still polling after the answers `pre` goes on with the
next answers from the state it reached, the flag being unset. -/
theorem poll_loop_append (k : Kernel) (l : List poll_event) :
    ∀ (pre : List poll_event) (e : Bool) (s s1 : State),
    poll_loop k e pre s = (loop_exit.polling, s1) →
    poll_loop k e (pre ++ l) s = poll_loop k false l s1
  | [], e, s, s1, h => by
    cases e
    · simp only [poll_loop, Bool.false_eq_true, if_false, Prod.mk.injEq, true_and] at h
      subst h
      rfl
    · simp [poll_loop] at h
  | p :: pre, e, s, s1, h => by
    cases e
    · simp only [List.cons_append, poll_loop, Bool.false_eq_true, if_false,
        Bool.false_or] at h ⊢
      split
      · rename_i hneg
        simp only [hneg, if_true] at h
        split at h <;> simp at h
      · rename_i hneg
        simp only [hneg, if_false] at h
        cases hs : p.signal
        · rw [hs] at h
          exact poll_loop_append k l pre false _ s1 h
        · rw [hs] at h
          cases pre <;> simp [poll_loop] at h
    · simp [poll_loop] at h

/-- C11: when `tracer_run` has reached its loop and the loop is still polling
after the answers `pre`, a next poll with a negative result during which the
signal handler set the stop flag is not an error: the loop is left as
stopped, `output_post_trace` is called exactly once, and provided it does not
return -1 `tracer_run` returns 0, having called `script_exec_fini` once if a
script is configured.  The same negative result with the stop flag unset
makes `tracer_run` return -1 with no finalize hook called. -/
theorem tracer_run_negative_poll (k : Kernel) (t : ipft_tracer) (pre rest : List poll_event)
    (p : poll_event) (s1 : State)
    (hstart : (tracer_run_start k t State.init).1 = 0)
    (hpre : poll_loop k false pre (tracer_run_start k t State.init).2 = (loop_exit.polling, s1))
    (hneg : (perf_buffer__poll k p s1).1 < 0) :
    (p.signal = true →
      poll_loop k false (pre ++ p :: rest) (tracer_run_start k t State.init).2
        = (loop_exit.stopped, (perf_buffer__poll k p s1).2) ∧
      tracer_run k t false (pre ++ p :: rest) State.init
        = some (tracer_run_finish k t (perf_buffer__poll k p s1).2) ∧
      (tracer_run_finish k t (perf_buffer__poll k p s1).2).2.count_call
        Call.output_post_trace = 1 ∧
      (k.output_post_trace ≠ -1 →
        (tracer_run_finish k t (perf_buffer__poll k p s1).2).1 = 0 ∧
        (tracer_run_finish k t (perf_buffer__poll k p s1).2).2.count_call
          Call.script_exec_fini = (if t.script then 1 else 0))) ∧
    (p.signal = false →
      poll_loop k false (pre ++ p :: rest) (tracer_run_start k t State.init).2
        = (loop_exit.poll_failed, (perf_buffer__poll k p s1).2) ∧
      tracer_run k t false (pre ++ p :: rest) State.init
        = some (-1, (perf_buffer__poll k p s1).2) ∧
      (perf_buffer__poll k p s1).2.count_call Call.output_post_trace = 0 ∧
      (perf_buffer__poll k p s1).2.count_call Call.script_exec_fini = 0) := by
  have happ := poll_loop_append k (p :: rest) pre false _ s1 hpre
  have hs1 : ∀ c, c = Call.output_post_trace ∨ c = Call.script_exec_fini →
      s1.count_call c = 0 := by
    intro c hc
    have h := poll_loop_hooks k c hc pre false (tracer_run_start k t State.init).2
    rw [hpre, tracer_run_start_hooks k t State.init c hc] at h
    exact h
  have hp : ∀ c, c = Call.output_post_trace ∨ c = Call.script_exec_fini →
      (perf_buffer__poll k p s1).2.count_call c = 0 := by
    intro c hc
    rw [perf_buffer__poll_hooks k p s1 c hc, hs1 c hc]
  constructor
  · intro hsig
    have hloop : poll_loop k false (pre ++ p :: rest) (tracer_run_start k t State.init).2
        = (loop_exit.stopped, (perf_buffer__poll k p s1).2) := by
      rw [happ]
      simp [poll_loop, hneg, hsig]
    refine ⟨hloop, ?_, ?_, ?_⟩
    · unfold tracer_run
      simp only [hstart, bne_self_eq_false, Bool.false_eq_true, if_false, hloop]
    · unfold tracer_run_finish
      dsimp only
      repeat (first | split | simp [count_call_log, hp])
    · intro hne
      cases hscript : t.script <;>
        simp [tracer_run_finish, hne, hscript, count_call_log, hp]
  · intro hsig
    have hloop : poll_loop k false (pre ++ p :: rest) (tracer_run_start k t State.init).2
        = (loop_exit.poll_failed, (perf_buffer__poll k p s1).2) := by
      rw [happ]
      simp [poll_loop, hneg, hsig]
    refine ⟨hloop, ?_, hp _ (Or.inl rfl), hp _ (Or.inr rfl)⟩
    unfold tracer_run
    simp only [hstart, bne_self_eq_false, Bool.false_eq_true, if_false, hloop]

/-- Witness for C11: one sample is polled, then the signal interrupts the
next poll, which returns -4; the script is configured and
`output_post_trace` succeeds, so `tracer_run` returns 0.  When the second
poll instead fails with -5 and no signal has arrived, `tracer_run` returns
-1. -/
theorem tracer_run_negative_poll_witness :
    (tracer_run_start demo_kernel (demo_tracer_script "kprobe") State.init).1 = 0 ∧
    (perf_buffer__poll demo_kernel poll_interrupted
      (poll_loop demo_kernel false [poll_sample]
        (tracer_run_start demo_kernel (demo_tracer_script "kprobe") State.init).2).2).1 < 0 ∧
    poll_interrupted.signal = true ∧
    (tracer_run demo_kernel (demo_tracer_script "kprobe") false
      ([poll_sample] ++ poll_interrupted :: [poll_sample]) State.init).map (fun r => r.1)
      = some 0 ∧
    poll_broken.signal = false ∧
    (tracer_run demo_kernel (demo_tracer_script "kprobe") false
      ([poll_sample] ++ poll_broken :: [poll_sample]) State.init).map (fun r => r.1)
      = some (-1) :=
  have h := (tracer_run_negative_poll demo_kernel (demo_tracer_script "kprobe") [poll_sample]
    [poll_sample] poll_interrupted
    (poll_loop demo_kernel false [poll_sample]
      (tracer_run_start demo_kernel (demo_tracer_script "kprobe") State.init).2).2
    (by decide) (by decide) (by decide)).1 (by decide)
  have g := (tracer_run_negative_poll demo_kernel (demo_tracer_script "kprobe") [poll_sample]
    [poll_sample] poll_broken
    (poll_loop demo_kernel false [poll_sample]
      (tracer_run_start demo_kernel (demo_tracer_script "kprobe") State.init).2).2
    (by decide) (by decide) (by decide)).2 (by decide)
  ⟨by decide, by decide, by decide,
    by rw [h.2.1]; exact congrArg some (h.2.2.2 (by decide)).1,
    by decide,
    by rw [g.2.1]; rfl⟩

/-! ## C12: the init-target pre-pass of the ftrace backend -/

/-- The digit loop of `Nat.toDigits` only prepends to its accumulator. -/
theorem toDigitsCore_append (b : Nat) :
    ∀ (f n : Nat) (ds : List Char),
    Nat.toDigitsCore b f n ds = Nat.toDigitsCore b f n [] ++ ds
  | 0, _, ds => by simp [Nat.toDigitsCore]
  | f + 1, n, ds => by
    simp only [Nat.toDigitsCore]
    split
    · simp
    · rw [toDigitsCore_append b f (n / b) (Nat.digitChar (n % b) :: ds),
        toDigitsCore_append b f (n / b) [Nat.digitChar (n % b)]]
      simp

/-- The value of a decimal digit character produced by `Nat.digitChar`. -/
theorem digitChar_value (m : Nat) (h : m < 10) : (Nat.digitChar m).toNat - 48 = m := by
  interval_cases m <;> rfl

/-- Reading back the decimal digits of `n` gives `n`. -/
theorem toDigitsCore_value :
    ∀ (f n : Nat), n < f →
    (Nat.toDigitsCore 10 f n []).foldl (fun a c => a * 10 + (c.toNat - 48)) 0 = n
  | 0, _, h => absurd h (Nat.not_lt_zero _)
  | f + 1, n, h => by
    simp only [Nat.toDigitsCore]
    split
    · rename_i h0
      have hn : n < 10 := by
        by_contra hc
        have : 1 ≤ n / 10 := (Nat.le_div_iff_mul_le (by norm_num)).mpr (by omega)
        omega
      simp only [List.foldl_cons, List.foldl_nil, Nat.zero_mul, Nat.zero_add]
      rw [digitChar_value _ (Nat.mod_lt _ (by norm_num))]
      exact Nat.mod_eq_of_lt hn
    · rename_i h0
      have hlt : n / 10 < f := by
        have : n / 10 < n := Nat.div_lt_self (by omega) (by norm_num)
        omega
      rw [toDigitsCore_append, List.foldl_append, toDigitsCore_value f (n / 10) hlt]
      simp only [List.foldl_cons, List.foldl_nil]
      rw [digitChar_value _ (Nat.mod_lt _ (by norm_num))]
      exact Nat.div_add_mod' n 10

/-- The decimal digits of a number do not contain an underscore. -/
theorem toDigitsCore_no_underscore :
    ∀ (f n : Nat) (ds : List Char), (∀ c ∈ ds, c ≠ '_') →
    ∀ c ∈ Nat.toDigitsCore 10 f n ds, c ≠ '_'
  | 0, _, ds, h => by simpa [Nat.toDigitsCore] using h
  | f + 1, n, ds, h => by
    have hd : Nat.digitChar (n % 10) ≠ '_' := by
      have hm : n % 10 < 10 := Nat.mod_lt _ (by norm_num)
      generalize n % 10 = m at hm
      interval_cases m <;> decide
    have hds : ∀ c ∈ Nat.digitChar (n % 10) :: ds, c ≠ '_' := by
      intro c hc
      rcases List.mem_cons.mp hc with h1 | h1
      · rw [h1]; exact hd
      · exact h c h1
    simp only [Nat.toDigitsCore]
    split
    · exact hds
    · exact toDigitsCore_no_underscore f (n / 10) _ hds

/-- The decimal rendering of natural numbers is injective. -/
theorem toString_nat_injective (i j : Nat) (h : (toString i).data = (toString j).data) :
    i = j := by
  have hi := toDigitsCore_value (i + 1) i (Nat.lt_succ_self i)
  have hj := toDigitsCore_value (j + 1) j (Nat.lt_succ_self j)
  have h1 : Nat.toDigits 10 i = Nat.toDigits 10 j := h
  unfold Nat.toDigits at h1
  rw [h1] at hi
  exact hi.symm.trans hj

/-- Distinct positions have distinct entry program names. -/
theorem main_name_injective (i j : Nat) (h : main_name i = main_name j) : i = j := by
  apply toString_nat_injective
  have h1 := congrArg String.data h
  simp only [main_name, String.data_append] at h1
  exact List.append_cancel_left h1

/-- Distinct positions have distinct exit program names. -/
theorem main_return_name_injective (i j : Nat) (h : main_return_name i = main_return_name j) :
    i = j := by
  apply toString_nat_injective
  have h1 := congrArg String.data h
  simp only [main_return_name, String.data_append] at h1
  exact List.append_cancel_left h1

/-- An entry program name is never an exit program name. -/
theorem main_name_ne_main_return_name (i j : Nat) : main_name i ≠ main_return_name j := by
  intro h
  have h1 := congrArg String.data h
  simp only [main_name, main_return_name, String.data_append] at h1
  have h3 : (toString i).data
      = '_' :: (['r', 'e', 't', 'u', 'r', 'n'] ++ (toString j).data) := by
    simpa using h1
  have hmem : '_' ∈ (toString i).data := by
    rw [h3]; exact List.mem_cons_self _ _
  have hno : ∀ c ∈ (toString i).data, c ≠ '_' :=
    toDigitsCore_no_underscore (i + 1) i [] (fun c hc => absurd hc (List.not_mem_nil c))
  exact hno '_' hmem rfl

/-- A program found under a name bears that name. -/
theorem find_program_name (bpf : bpf_object) (n : String) (p : bpf_program)
    (h : bpf_object__find_program_by_name bpf n = some p) : p.name = n := by
  have := List.find?_some h
  simpa using this

/-- Updating the program called `name` does not change what is found under
another name. -/
theorem find_update_program_ne (name n : String) (f : bpf_program → bpf_program)
    (hf : ∀ p, (f p).name = p.name) (hne : n ≠ name) :
    ∀ l : List bpf_program,
    bpf_object__find_program_by_name ⟨update_program name f l⟩ n
      = bpf_object__find_program_by_name ⟨l⟩ n
  | [] => rfl
  | p :: ps => by
    have ih := find_update_program_ne name n f hf hne ps
    simp only [bpf_object__find_program_by_name] at ih ⊢
    simp only [update_program]
    cases hc : p.name == name
    · simp only [Bool.false_eq_true, ↓reduceIte, List.find?_cons, ih]
    · have hp : p.name = name := by simpa using hc
      have h1 : ((f p).name == n) = false := by
        rw [hf, hp]; exact beq_eq_false_iff_ne.mpr (Ne.symm hne)
      have h2 : (p.name == n) = false := by
        rw [hp]; exact beq_eq_false_iff_ne.mpr (Ne.symm hne)
      simp only [↓reduceIte, List.find?_cons, h1, h2]

/-- Updating the program called `name` updates what is found under that
name. -/
theorem find_update_program_eq (name : String) (f : bpf_program → bpf_program)
    (hf : ∀ p, (f p).name = p.name) :
    ∀ l : List bpf_program,
    bpf_object__find_program_by_name ⟨update_program name f l⟩ name
      = (bpf_object__find_program_by_name ⟨l⟩ name).map f
  | [] => rfl
  | p :: ps => by
    have ih := find_update_program_eq name f hf ps
    simp only [bpf_object__find_program_by_name] at ih ⊢
    simp only [update_program]
    cases hc : p.name == name
    · simp only [Bool.false_eq_true, ↓reduceIte, List.find?_cons, hc, ih]
    · have h1 : ((f p).name == name) = true := by
        rw [hf]; exact hc
      simp only [↓reduceIte, List.find?_cons, h1, hc, Option.map_some']

/-- One position of the pre-pass, when both templates are in the object and
`bpf_program__set_attach_target` succeeds: the two templates get the effect
of the position and every other program is left as it is. -/
theorem ftrace_set_init_target_pos_spec (e : build_env) (t : ipft_tracer) (i : Nat)
    (bpf : bpf_object) (ep xp : bpf_program)
    (hep : bpf_object__find_program_by_name bpf (main_name i) = some ep)
    (hxp : bpf_object__find_program_by_name bpf (main_return_name i) = some xp)
    (hset : ∀ sym, symsdb_pos2syms_get t.sdb i 0 = some sym →
      e.set_attach_target (main_name i) sym = 0 ∧
      e.set_attach_target (main_return_name i) sym = 0) :
    (ftrace_set_init_target_pos e t i bpf).1 = 0 ∧
    bpf_object__find_program_by_name (ftrace_set_init_target_pos e t i bpf).2 (main_name i)
      = some (init_target_effect t i ep) ∧
    bpf_object__find_program_by_name (ftrace_set_init_target_pos e t i bpf).2
      (main_return_name i) = some (init_target_effect t i xp) ∧
    (∀ n, n ≠ main_name i → n ≠ main_return_name i →
      bpf_object__find_program_by_name (ftrace_set_init_target_pos e t i bpf).2 n
        = bpf_object__find_program_by_name bpf n) := by
  have hen := find_program_name bpf _ ep hep
  have hxn := find_program_name bpf _ xp hxp
  have hne := main_name_ne_main_return_name i i
  obtain ⟨progs⟩ := bpf
  have hframe : ∀ (f : bpf_program → bpf_program), (∀ p, (f p).name = p.name) →
      bpf_object__find_program_by_name
          ⟨update_program (main_return_name i) f (update_program (main_name i) f progs)⟩
          (main_name i) = some (f ep) ∧
      bpf_object__find_program_by_name
          ⟨update_program (main_return_name i) f (update_program (main_name i) f progs)⟩
          (main_return_name i) = some (f xp) ∧
      (∀ n, n ≠ main_name i → n ≠ main_return_name i →
        bpf_object__find_program_by_name
          ⟨update_program (main_return_name i) f (update_program (main_name i) f progs)⟩ n
          = bpf_object__find_program_by_name ⟨progs⟩ n) := by
    intro f hf
    refine ⟨?_, ?_, ?_⟩
    · rw [find_update_program_ne (main_return_name i) (main_name i) f hf hne,
        find_update_program_eq (main_name i) f hf, hep]
      rfl
    · rw [find_update_program_eq (main_return_name i) f hf,
        find_update_program_ne (main_name i) (main_return_name i) f hf (Ne.symm hne), hxp]
      rfl
    · intro n h1 h2
      rw [find_update_program_ne (main_return_name i) n f hf h2,
        find_update_program_ne (main_name i) n f hf h1]
  cases hsym : symsdb_pos2syms_get t.sdb i 0 with
  | none =>
    have hres : ftrace_set_init_target_pos e t i ⟨progs⟩
        = (0, ⟨update_program (main_return_name i) (fun p => { p with autoload := false })
            (update_program (main_name i) (fun p => { p with autoload := false }) progs)⟩) := by
      simp only [ftrace_set_init_target_pos, hep, hxp, hsym, bpf_program__set_autoload, hen, hxn]
    have hf := hframe (fun p => { p with autoload := false }) (fun _ => rfl)
    rw [hres]
    simp only [init_target_effect, hsym]
    exact ⟨trivial, hf.1, hf.2.1, hf.2.2⟩
  | some sym =>
    obtain ⟨h1, h2⟩ := hset sym hsym
    have hd : ((0 : Int) == -1) = false := by decide
    have hres : ftrace_set_init_target_pos e t i ⟨progs⟩
        = (0, ⟨update_program (main_return_name i) (fun p => { p with attach_target := some sym })
            (update_program (main_name i) (fun p => { p with attach_target := some sym })
              progs)⟩) := by
      simp only [ftrace_set_init_target_pos, hep, hxp, hsym, bpf_program__set_attach_target,
        hen, hxn, h1, h2, beq_self_eq_true, if_true, hd, Bool.false_eq_true, if_false]
    have hf := hframe (fun p => { p with attach_target := some sym }) (fun _ => rfl)
    rw [hres]
    simp only [init_target_effect, hsym]
    exact ⟨trivial, hf.1, hf.2.1, hf.2.2⟩

/-- The loop of the pre-pass over distinct positions whose templates are in
the object: it returns 0, each listed position has had its effect on its two
templates, and the programs of no listed position are left as they were. -/
theorem ftrace_set_init_target_loop_spec (e : build_env) (t : ipft_tracer) :
    ∀ (ps : List Nat) (bpf : bpf_object), ps.Nodup →
    (∀ i ∈ ps, bpf_object__find_program_by_name bpf (main_name i) ≠ none ∧
      bpf_object__find_program_by_name bpf (main_return_name i) ≠ none) →
    (∀ i ∈ ps, ∀ sym, symsdb_pos2syms_get t.sdb i 0 = some sym →
      e.set_attach_target (main_name i) sym = 0 ∧
      e.set_attach_target (main_return_name i) sym = 0) →
    (ftrace_set_init_target_loop e t ps bpf).1 = 0 ∧
    (∀ i ∈ ps,
      bpf_object__find_program_by_name (ftrace_set_init_target_loop e t ps bpf).2 (main_name i)
        = (bpf_object__find_program_by_name bpf (main_name i)).map (init_target_effect t i) ∧
      bpf_object__find_program_by_name (ftrace_set_init_target_loop e t ps bpf).2
          (main_return_name i)
        = (bpf_object__find_program_by_name bpf (main_return_name i)).map
            (init_target_effect t i)) ∧
    (∀ n, (∀ i ∈ ps, n ≠ main_name i ∧ n ≠ main_return_name i) →
      bpf_object__find_program_by_name (ftrace_set_init_target_loop e t ps bpf).2 n
        = bpf_object__find_program_by_name bpf n)
  | [], bpf, _, _, _ => by
    refine ⟨rfl, ?_, fun n _ => rfl⟩
    intro i hi
    exact absurd hi (List.not_mem_nil i)
  | i :: rest, bpf, hnd, hfound, hset => by
    obtain ⟨ep, hep⟩ := Option.ne_none_iff_exists'.mp (hfound i (List.mem_cons_self _ _)).1
    obtain ⟨xp, hxp⟩ := Option.ne_none_iff_exists'.mp (hfound i (List.mem_cons_self _ _)).2
    have hpos := ftrace_set_init_target_pos_spec e t i bpf ep xp hep hxp
      (hset i (List.mem_cons_self _ _))
    have hirest : i ∉ rest := (List.nodup_cons.mp hnd).1
    have hother : ∀ j ∈ rest,
        (main_name j ≠ main_name i ∧ main_name j ≠ main_return_name i) ∧
        (main_return_name j ≠ main_name i ∧ main_return_name j ≠ main_return_name i) := by
      intro j hj
      have hji : j ≠ i := fun h => hirest (h ▸ hj)
      exact ⟨⟨fun h => hji (main_name_injective j i h), main_name_ne_main_return_name j i⟩,
        ⟨fun h => main_name_ne_main_return_name i j h.symm,
          fun h => hji (main_return_name_injective j i h)⟩⟩
    have hfound1 : ∀ j ∈ rest,
        bpf_object__find_program_by_name (ftrace_set_init_target_pos e t i bpf).2 (main_name j)
          ≠ none ∧
        bpf_object__find_program_by_name (ftrace_set_init_target_pos e t i bpf).2
          (main_return_name j) ≠ none := by
      intro j hj
      rw [hpos.2.2.2 _ (hother j hj).1.1 (hother j hj).1.2,
        hpos.2.2.2 _ (hother j hj).2.1 (hother j hj).2.2]
      exact hfound j (List.mem_cons_of_mem _ hj)
    have ih := ftrace_set_init_target_loop_spec e t rest (ftrace_set_init_target_pos e t i bpf).2
      (List.nodup_cons.mp hnd).2 hfound1 (fun j hj => hset j (List.mem_cons_of_mem _ hj))
    have hstep : ftrace_set_init_target_loop e t (i :: rest) bpf
        = ftrace_set_init_target_loop e t rest (ftrace_set_init_target_pos e t i bpf).2 := by
      simp only [ftrace_set_init_target_loop, hpos.1]
      rfl
    rw [hstep]
    refine ⟨ih.1, ?_, ?_⟩
    · intro j hj
      rcases List.mem_cons.mp hj with h | h
      · subst h
        have hn1 : ∀ m ∈ rest, main_name j ≠ main_name m ∧ main_name j ≠ main_return_name m :=
          fun m hm => ⟨fun h => (hother m hm).1.1 h.symm, main_name_ne_main_return_name j m⟩
        have hn2 : ∀ m ∈ rest,
            main_return_name j ≠ main_name m ∧ main_return_name j ≠ main_return_name m :=
          fun m hm => ⟨fun h => main_name_ne_main_return_name m j h.symm,
            fun h => (hother m hm).2.2 h.symm⟩
        rw [ih.2.2 _ hn1, ih.2.2 _ hn2, hpos.2.1, hpos.2.2.1, hep, hxp]
        exact ⟨rfl, rfl⟩
      · have := ih.2.1 j h
        rw [hpos.2.2.2 _ (hother j h).1.1 (hother j h).1.2,
          hpos.2.2.2 _ (hother j h).2.1 (hother j h).2.2] at this
        exact this
    · intro n hn
      have hni := hn i (List.mem_cons_self _ _)
      rw [ih.2.2 n (fun m hm => hn m (List.mem_cons_of_mem _ hm)), hpos.2.2.2 n hni.1 hni.2]

/-- The regex of the tracer plays no part in the loop of the pre-pass. -/
theorem ftrace_set_init_target_loop_regex (e : build_env) (t : ipft_tracer)
    (re : String → Bool) :
    ∀ (ps : List Nat) (bpf : bpf_object),
    ftrace_set_init_target_loop e { t with re := re } ps bpf
      = ftrace_set_init_target_loop e t ps bpf
  | [], _ => rfl
  | i :: rest, bpf => by
    have hpos : ftrace_set_init_target_pos e { t with re := re } i bpf
        = ftrace_set_init_target_pos e t i bpf := rfl
    simp only [ftrace_set_init_target_loop, hpos]
    split
    · rfl
    · exact ftrace_set_init_target_loop_regex e t re rest _

/-- C12: in an object that holds the entry and exit template of every
position below `MAX_SKB_POS`, and with `bpf_program__set_attach_target`
succeeding on the first symbol of every position that has one,
`ftrace_set_init_target` returns 0 and, for every position `i` below
`MAX_SKB_POS`: if the database lists no symbol at `i`, both templates of `i`
have autoload false and the attach target they had before; if it lists at
least one, both templates have the first symbol of `i` as attach target and
the autoload setting they had before.  The symbols of a position are those
the database lists there: the regex plays no part in the pre-pass. -/
theorem ftrace_set_init_target_marks (k : Kernel) (e : build_env) (t : ipft_tracer)
    (bpf : bpf_object)
    (htempl : ∀ i < k.MAX_SKB_POS,
      bpf_object__find_program_by_name bpf (main_name i) ≠ none ∧
      bpf_object__find_program_by_name bpf (main_return_name i) ≠ none)
    (hset : ∀ i < k.MAX_SKB_POS, ∀ sym, symsdb_pos2syms_get t.sdb i 0 = some sym →
      e.set_attach_target (main_name i) sym = 0 ∧
      e.set_attach_target (main_return_name i) sym = 0) :
    (ftrace_set_init_target k e t bpf).1 = 0 ∧
    (∀ re, ftrace_set_init_target k e { t with re := re } bpf
      = ftrace_set_init_target k e t bpf) ∧
    (∀ i < k.MAX_SKB_POS, ∃ ep0 xp0 ep xp,
      bpf_object__find_program_by_name bpf (main_name i) = some ep0 ∧
      bpf_object__find_program_by_name bpf (main_return_name i) = some xp0 ∧
      bpf_object__find_program_by_name (ftrace_set_init_target k e t bpf).2 (main_name i)
        = some ep ∧
      bpf_object__find_program_by_name (ftrace_set_init_target k e t bpf).2
        (main_return_name i) = some xp ∧
      (symsdb_get_pos2syms_total t.sdb i = 0 →
        ep.autoload = false ∧ xp.autoload = false ∧
        ep.attach_target = ep0.attach_target ∧ xp.attach_target = xp0.attach_target) ∧
      (0 < symsdb_get_pos2syms_total t.sdb i →
        ∃ sym, symsdb_pos2syms_get t.sdb i 0 = some sym ∧
          ep.attach_target = some sym ∧ xp.attach_target = some sym ∧
          ep.autoload = ep0.autoload ∧ xp.autoload = xp0.autoload)) := by
  have hloop := ftrace_set_init_target_loop_spec e t (List.range k.MAX_SKB_POS) bpf
    (List.nodup_range _)
    (fun i hi => htempl i (List.mem_range.mp hi))
    (fun i hi => hset i (List.mem_range.mp hi))
  refine ⟨hloop.1, fun re => ftrace_set_init_target_loop_regex e t re _ bpf, ?_⟩
  intro i hi
  obtain ⟨ep0, hep0⟩ := Option.ne_none_iff_exists'.mp (htempl i hi).1
  obtain ⟨xp0, hxp0⟩ := Option.ne_none_iff_exists'.mp (htempl i hi).2
  have h := hloop.2.1 i (List.mem_range.mpr hi)
  rw [hep0, hxp0] at h
  refine ⟨ep0, xp0, init_target_effect t i ep0, init_target_effect t i xp0,
    hep0, hxp0, h.1, h.2, ?_, ?_⟩
  · intro hz
    have hnone : symsdb_pos2syms_get t.sdb i 0 = none := by
      simp only [symsdb_get_pos2syms_total, List.length_eq_zero] at hz
      simp [symsdb_pos2syms_get, hz]
    simp [init_target_effect, hnone]
  · intro hpos
    simp only [symsdb_get_pos2syms_total] at hpos
    have hsome : symsdb_pos2syms_get t.sdb i 0 = some ((symsdb_pos2syms t.sdb i).get ⟨0, hpos⟩) := by
      simp [symsdb_pos2syms_get, List.getElem?_eq_getElem hpos]
    refine ⟨_, hsome, ?_⟩
    simp [init_target_effect, hsome]

/-- Witness for C12: two positions, the symbol `a` at position 0 and none at
position 1; the templates of position 0 get `a` as attach target and stay
loadable, those of position 1 are not to be loaded and get no target. -/
theorem ftrace_set_init_target_marks_witness :
    (∀ i < demo_kernel.MAX_SKB_POS,
      bpf_object__find_program_by_name demo_obj (main_name i) ≠ none ∧
      bpf_object__find_program_by_name demo_obj (main_return_name i) ≠ none) ∧
    symsdb_get_pos2syms_total (tracer_one_symbol "ftrace").sdb 0 = 1 ∧
    symsdb_get_pos2syms_total (tracer_one_symbol "ftrace").sdb 1 = 0 ∧
    (ftrace_set_init_target demo_kernel demo_build_env (tracer_one_symbol "ftrace") demo_obj).1
      = 0 ∧
    (ftrace_set_init_target demo_kernel demo_build_env (tracer_one_symbol "ftrace") demo_obj).2
      = ⟨[⟨"ipft_main0", true, some "a"⟩, ⟨"ipft_main1", false, none⟩,
          ⟨"ipft_main_return0", true, some "a"⟩, ⟨"ipft_main_return1", false, none⟩]⟩ :=
  ⟨by decide, by decide, by decide,
    (ftrace_set_init_target_marks demo_kernel demo_build_env (tracer_one_symbol "ftrace")
      demo_obj (by decide) (fun _ _ _ _ => ⟨rfl, rfl⟩)).1,
    by decide⟩

end Ipftrace
